import Mathlib

/-!
# kms-elements: the plumber endpoint (`src/gst-plugins/kmsplumberendpoint.c`)

A shallow embedding of the endpoint-side rendezvous logic of
`kmsplumberendpoint.c`.  The C functions are translated statement by
statement into pure functions over two pieces of explicit state:

* `KmsPlumberEndpointPrivate`, the private structure of the endpoint, and
* `World`, everything that lives in the libraries the file calls into
  (the bin's children, connected signal handlers, the monotonic clock, the
  state of the valves, and a trace of every library call in program order).

What the libraries answer (does a link succeed, when does an element report
its bound port, what does the peer answer to a stream request) is given by an
`Env`, over which the general theorems are quantified.

Modelling conventions:
* a `GstElement *` / `KmsMultiChannelController *` is an `Option` of an
  identifier, `none` being `NULL`;
* `gst_element_factory_make` hands out a fresh identifier, i.e. the
  `sctpserversrc` and `sctpclientsink` factories are taken to be registered;
* the calls are executed atomically in program order (the recursive element
  lock and the `GMutex`/`GCond` pair of `SyncCurrentPortData` are therefore
  not represented); time only passes inside `g_cond_wait_until`;
* logging (`GST_WARNING`, `GST_ERROR`, `GST_DEBUG`) has no effect on the state;
* the wait loop is unbounded in C, so it is run with fuel and the result of a
  call that does not return within the fuel is `none`.
-/

namespace KmsPlumberEndpoint

/-! ## Constants -/

/-- The macro `SCTP_DEFAULT_ADDR` (line 27). -/
def SCTP_DEFAULT_ADDR : String := "localhost"

/-- The macro `SCTP_DEFAULT_LOCAL_PORT` (line 28). -/
def SCTP_DEFAULT_LOCAL_PORT : Int := 0

/-- The macro `SCTP_DEFAULT_REMOTE_PORT` (line 29). -/
def SCTP_DEFAULT_REMOTE_PORT : Int := 9999

/-- The macro `KMS_WAIT_TIMEOUT` (line 31), in seconds. -/
def KMS_WAIT_TIMEOUT : Nat := 5

/-- GLib's `G_TIME_SPAN_SECOND`: the monotonic clock counts microseconds. -/
def G_TIME_SPAN_SECOND : Nat := 1000000

/-- GLib's `G_MAXUINT16`. -/
def G_MAXUINT16 : Int := 65535

/-! ## Data model -/

/-- Identifier of a pipeline element (the target of a `GstElement *`). -/
abbrev ElemId := Nat

/-- Identifier of a channel controller instance. -/
abbrev MccId := Nat

/-- The enumeration `StreamType` of `kmsmultichannelcontroller.h`.  The switch
of `kms_plumber_endpoint_create_sctp_src` has a `default:` branch, so any other
enumerator value is kept as `other`. -/
inductive StreamType where
  | STREAM_TYPE_AUDIO
  | STREAM_TYPE_VIDEO
  | other (raw : Nat)
  deriving DecidableEq, Repr

/-- A `GValue` as far as this file uses them: a string (possibly `NULL`) or an
integer. -/
inductive GValue where
  | string (s : Option String)
  | int (i : Int)
  deriving DecidableEq, Repr

/-- The structure `_KmsPlumberEndpointPrivate` (lines 45 to 62).  The two ports
are `guint16`. -/
structure KmsPlumberEndpointPrivate where
  mcc : Option MccId
  local_addr : Option String
  remote_addr : Option String
  local_port : Nat
  remote_port : Nat
  audiosrc : Option ElemId
  videosrc : Option ElemId
  audiosink : Option ElemId
  videosink : Option ElemId
  deriving DecidableEq, Repr

/-- The structure `SyncCurrentPortData` (lines 64 to 70) without its condition
variable and mutex. -/
structure SyncCurrentPortData where
  done : Bool
  port : Int
  deriving DecidableEq, Repr

/-- The property identifiers (lines 72 to 80). -/
inductive PropertyId where
  | PROP_0
  | PROP_LOCAL_ADDR
  | PROP_LOCAL_PORT
  | PROP_REMOTE_ADDR
  | PROP_REMOTE_PORT
  | N_PROPERTIES
  deriving DecidableEq, Repr

/-- GStreamer's `GstStateChange`. -/
inductive GstStateChange where
  | NULL_TO_READY
  | READY_TO_PAUSED
  | PAUSED_TO_PLAYING
  | PLAYING_TO_PAUSED
  | PAUSED_TO_READY
  | READY_TO_NULL
  deriving DecidableEq, Repr

/-- GStreamer's `GstStateChangeReturn`. -/
inductive GstStateChangeReturn where
  | FAILURE
  | SUCCESS
  | ASYNC
  | NO_PREROLL
  deriving DecidableEq, Repr

/-- One call into a library, as recorded in the trace of the world. -/
inductive Event where
  | factory_make (factory : String) (e : ElemId)
  | object_set (e : ElemId) (property : String) (v : GValue)
  | signal_connect (e : ElemId) (signal : String) (id : Nat)
  | signal_handler_disconnect (e : Option ElemId) (id : Nat)
  | bin_add (e : ElemId)
  | bin_remove (e : ElemId)
  | sync_state_with_parent (e : ElemId)
  | set_state_null (e : ElemId)
  | element_link (src dest : ElemId)
  | cond_wait_until (end_time : Nat)
  | set_valve_drop (valve : ElemId) (drop : Bool)
  | mcc_new (mcc : MccId) (addr : Option String) (port : Nat)
  | mcc_set_create_stream_callback (mcc : MccId)
  | mcc_start (mcc : MccId)
  | mcc_connect (mcc : MccId) (addr : String) (port : Nat)
  | mcc_create_media_stream (mcc : Option MccId) (type : StreamType) (chanid : Nat)
  | mcc_stop (mcc : Option MccId)
  | mcc_unref (mcc : Option MccId)
  | parent_change_state (transition : GstStateChange)
  deriving DecidableEq, Repr

/-- A connected `notify::current-port` handler: the object it is connected to,
its handler id, and the `SyncCurrentPortData` its user-data pointer refers to. -/
structure Handler where
  object : ElemId
  id : Nat
  user_data : SyncCurrentPortData
  deriving DecidableEq, Repr

/-- A `current-port` notification an element will emit at monotonic time
`time`, reporting `port`. -/
structure Notification where
  object : ElemId
  time : Nat
  port : Int
  deriving DecidableEq, Repr

/-- The state held by the libraries. -/
structure World where
  /-- Reading of `g_get_monotonic_time`, in microseconds. -/
  clock : Nat
  /-- Next identifier `gst_element_factory_make` hands out. -/
  nextElem : ElemId
  /-- Next handler id `g_signal_connect` hands out. -/
  nextSig : Nat
  /-- Next identifier `kms_multi_channel_controller_new` hands out. -/
  nextMcc : MccId
  /-- Children of the endpoint, which is a `GstBin`. -/
  bin : List ElemId
  /-- Connected handlers, the most recent first. -/
  handlers : List Handler
  /-- Notifications scheduled and not yet emitted. -/
  pending : List Notification
  /-- Valves whose `drop` property is `TRUE` (closed gates). -/
  dropping : List ElemId
  /-- Library calls so far, the oldest first. -/
  trace : List Event
  deriving DecidableEq, Repr

/-- Answers of the collaborators. -/
structure Env where
  /-- Result of `kms_element_get_audio_agnosticbin`. -/
  audio_agnosticbin : ElemId
  /-- Result of `kms_element_get_video_agnosticbin`. -/
  video_agnosticbin : ElemId
  /-- Result of `gst_element_link src dest`. -/
  link : ElemId → ElemId → Bool
  /-- When a started element reports its bound port: `none` for never,
  `some (d, p)` for `d` microseconds after it was started, with
  `current-port = p` (`d = 0`: synchronously, while it is being started). -/
  bind : ElemId → Option (Nat × Int)
  /-- Result of `kms_multi_channel_controller_connect`. -/
  connect : MccId → Bool
  /-- Port returned by `kms_multi_channel_controller_create_media_stream`
  (negative: an error was set). -/
  create_media_stream : StreamType → Nat → Int
  /-- Result of the parent class's `change_state`. -/
  parent_change_state : GstStateChange → GstStateChangeReturn

/-- Append one call to the trace. -/
def World.record (w : World) (ev : Event) : World :=
  { w with trace := w.trace ++ [ev] }

/-! ## The library calls -/

/-- Model of `gst_element_factory_make`: a fresh element. -/
def gst_element_factory_make (factory : String) (w : World) : ElemId × World :=
  (w.nextElem,
    { w with nextElem := w.nextElem + 1,
             trace := w.trace ++ [Event.factory_make factory w.nextElem] })

/-- Model of `g_object_set` with one property. -/
def g_object_set (e : ElemId) (property : String) (v : GValue) (w : World) : World :=
  w.record (Event.object_set e property v)

/-- Model of `g_signal_connect`: the handler is connected to `e` with
`user_data` pointing to `data`, and its id is returned. -/
def g_signal_connect (e : ElemId) (signal : String) (data : SyncCurrentPortData)
    (w : World) : Nat × World :=
  (w.nextSig,
    { w with nextSig := w.nextSig + 1,
             handlers := { object := e, id := w.nextSig, user_data := data } :: w.handlers,
             trace := w.trace ++ [Event.signal_connect e signal w.nextSig] })

/-- Model of `g_signal_handler_disconnect`.  On a `NULL` instance GLib's
argument check rejects the call and nothing is disconnected. -/
def g_signal_handler_disconnect (inst : Option ElemId) (sig_id : Nat) (w : World) : World :=
  match inst with
  | none => w.record (Event.signal_handler_disconnect none sig_id)
  | some e =>
    { w with handlers := w.handlers.filter (fun h => !(h.object == e && h.id == sig_id)),
             trace := w.trace ++ [Event.signal_handler_disconnect (some e) sig_id] }

/-- The `SyncCurrentPortData` a connected handler writes to, read back by the
call that connected it; the values of lines 228 and 229 when nothing is
connected under that id. -/
def syncdataOf (w : World) (sig_id : Nat) : SyncCurrentPortData :=
  match w.handlers.find? (fun h => h.id == sig_id) with
  | some h => h.user_data
  | none => { done := false, port := -1 }

/-- The callback `sctp_server_notify_current_port` (lines 172 to 187):
`current_port` is what `g_object_get (object, "current-port")` reads. -/
def sctp_server_notify_current_port (current_port : Int)
    (_syncdata : SyncCurrentPortData) : SyncCurrentPortData :=
  { done := true, port := current_port }

/-- Emission of `notify::current-port` on `e`: every handler connected to `e`
runs; with no handler connected the emission is lost. -/
def emit_notify_current_port (e : ElemId) (current_port : Int) (w : World) : World :=
  { w with handlers := w.handlers.map (fun h =>
      if h.object == e then
        { h with user_data := sctp_server_notify_current_port current_port h.user_data }
      else h) }

/-- Model of `gst_bin_add`. -/
def gst_bin_add (e : ElemId) (w : World) : World :=
  { w with bin := w.bin ++ [e], trace := w.trace ++ [Event.bin_add e] }

/-- Model of `gst_bin_remove`. -/
def gst_bin_remove (e : ElemId) (w : World) : World :=
  { w with bin := w.bin.filter (fun x => x != e), trace := w.trace ++ [Event.bin_remove e] }

/-- Model of `gst_element_sync_state_with_parent`: the element is started.  An
element that reports its port synchronously emits the notification here; one
that reports it later has the notification scheduled. -/
def gst_element_sync_state_with_parent (env : Env) (e : ElemId) (w : World) : World :=
  let w := w.record (Event.sync_state_with_parent e)
  match env.bind e with
  | none => w
  | some (0, p) => emit_notify_current_port e p w
  | some (d + 1, p) =>
    { w with pending := { object := e, time := w.clock + (d + 1), port := p } :: w.pending }

/-- Model of `gst_element_set_state (e, GST_STATE_NULL)`: a stopped element
emits nothing any more. -/
def gst_element_set_state_null (e : ElemId) (w : World) : World :=
  { w with pending := w.pending.filter (fun n => n.object != e),
           trace := w.trace ++ [Event.set_state_null e] }

/-- Model of `gst_element_link`. -/
def gst_element_link (env : Env) (src dest : ElemId) (w : World) : Bool × World :=
  (env.link src dest, w.record (Event.element_link src dest))

/-- Model of `g_get_monotonic_time`. -/
def g_get_monotonic_time (w : World) : Nat := w.clock

/-- The notification the handler `sig_id` is still going to receive. -/
def nextNotification (w : World) (sig_id : Nat) : Option Notification :=
  match w.handlers.find? (fun h => h.id == sig_id) with
  | none => none
  | some h => w.pending.find? (fun n => n.object == h.object)

/-- Model of `g_cond_wait_until` on the condition variable signalled by the
handler `sig_id`.  The call returns `TRUE` at the time of the notification when
that comes before the call times out, and `FALSE` at the time-out otherwise.
The time-out is `end_time`, or, when `end_time` has already passed, one clock
tick after the call was entered. -/
def g_cond_wait_until (sig_id : Nat) (end_time : Nat) (w : World) : Bool × World :=
  let w := w.record (Event.cond_wait_until end_time)
  let timeout := max end_time (w.clock + 1)
  match nextNotification w sig_id with
  | some n =>
    if n.time < timeout then
      (true, emit_notify_current_port n.object n.port
        { w with clock := max w.clock n.time,
                 pending := w.pending.filter (fun m => m != n) })
    else (false, { w with clock := timeout })
  | none => (false, { w with clock := timeout })

/-- Model of `kms_utils_set_valve_drop`. -/
def kms_utils_set_valve_drop (valve : ElemId) (drop : Bool) (w : World) : World :=
  { w with dropping := if drop then valve :: w.dropping.filter (fun v => v != valve)
                       else w.dropping.filter (fun v => v != valve),
           trace := w.trace ++ [Event.set_valve_drop valve drop] }

/-- Model of `kms_multi_channel_controller_new`: a fresh controller. -/
def kms_multi_channel_controller_new (addr : Option String) (port : Nat) (w : World) :
    MccId × World :=
  (w.nextMcc,
    { w with nextMcc := w.nextMcc + 1,
             trace := w.trace ++ [Event.mcc_new w.nextMcc addr port] })

/-- Model of `kms_multi_channel_controller_set_create_stream_callback`. -/
def kms_multi_channel_controller_set_create_stream_callback (mcc : MccId) (w : World) :
    World :=
  w.record (Event.mcc_set_create_stream_callback mcc)

/-- Model of `kms_multi_channel_controller_start`. -/
def kms_multi_channel_controller_start (mcc : MccId) (w : World) : World :=
  w.record (Event.mcc_start mcc)

/-- Model of `kms_multi_channel_controller_connect`. -/
def kms_multi_channel_controller_connect (env : Env) (mcc : MccId) (addr : String)
    (port : Nat) (w : World) : Bool × World :=
  (env.connect mcc, w.record (Event.mcc_connect mcc addr port))

/-- Model of `kms_multi_channel_controller_create_media_stream`. -/
def kms_multi_channel_controller_create_media_stream (env : Env) (mcc : Option MccId)
    (type : StreamType) (chanid : Nat) (w : World) : Int × World :=
  (env.create_media_stream type chanid,
    w.record (Event.mcc_create_media_stream mcc type chanid))

/-- Model of `kms_multi_channel_controller_stop`. -/
def kms_multi_channel_controller_stop (mcc : Option MccId) (w : World) : World :=
  w.record (Event.mcc_stop mcc)

/-- Model of `kms_multi_channel_controller_unref`. -/
def kms_multi_channel_controller_unref (mcc : Option MccId) (w : World) : World :=
  w.record (Event.mcc_unref mcc)

/-! ## The endpoint (`kmsplumberendpoint.c`) -/

/-- A `GstElement **` into the private structure: which of the four element
slots a pointer such as `element` (line 195) or `sctpsink` (line 311) refers
to. -/
inductive ElementSlot where
  | audiosrc
  | videosrc
  | audiosink
  | videosink
  deriving DecidableEq, Repr

/-- Reading through a slot pointer: the C expression `*element`. -/
def ElementSlot.read (slot : ElementSlot) (priv : KmsPlumberEndpointPrivate) :
    Option ElemId :=
  match slot with
  | ElementSlot.audiosrc => priv.audiosrc
  | ElementSlot.videosrc => priv.videosrc
  | ElementSlot.audiosink => priv.audiosink
  | ElementSlot.videosink => priv.videosink

/-- Writing through a slot pointer: the C statement `*element = v`. -/
def ElementSlot.write (slot : ElementSlot) (v : Option ElemId)
    (priv : KmsPlumberEndpointPrivate) : KmsPlumberEndpointPrivate :=
  match slot with
  | ElementSlot.audiosrc => { priv with audiosrc := v }
  | ElementSlot.videosrc => { priv with videosrc := v }
  | ElementSlot.audiosink => { priv with audiosink := v }
  | ElementSlot.videosink => { priv with videosink := v }

/-- The function `kms_plumber_endpoint_set_property` (lines 99 to 134).  A value
of the wrong kind for the property is left to GObject and changes nothing. -/
def kms_plumber_endpoint_set_property (property_id : PropertyId) (value : GValue)
    (priv : KmsPlumberEndpointPrivate) : KmsPlumberEndpointPrivate :=
  match property_id, value with
  | PropertyId.PROP_LOCAL_ADDR, GValue.string none => priv
  | PropertyId.PROP_LOCAL_ADDR, GValue.string (some s) => { priv with local_addr := some s }
  | PropertyId.PROP_LOCAL_PORT, GValue.int i =>
    { priv with local_port := (i % 65536).toNat }
  | PropertyId.PROP_REMOTE_ADDR, GValue.string none => priv
  | PropertyId.PROP_REMOTE_ADDR, GValue.string (some s) => { priv with remote_addr := some s }
  | PropertyId.PROP_REMOTE_PORT, GValue.int i =>
    { priv with remote_port := (i % 65536).toNat }
  | _, _ => priv

/-- The properties `kms_plumber_endpoint_class_init` installs (lines 432 to
453), each with the default value of its `GParamSpec`, in the order of
installation.  All four carry `G_PARAM_CONSTRUCT`. -/
def installed_properties : List (PropertyId × GValue) :=
  [ (PropertyId.PROP_LOCAL_ADDR, GValue.string (some "localhost")),
    (PropertyId.PROP_REMOTE_ADDR, GValue.string none),
    (PropertyId.PROP_LOCAL_PORT, GValue.int SCTP_DEFAULT_LOCAL_PORT),
    (PropertyId.PROP_REMOTE_PORT, GValue.int 0) ]

/-- The private structure as GObject allocates it: zero-filled. -/
def zeroed_private : KmsPlumberEndpointPrivate :=
  { mcc := none, local_addr := none, remote_addr := none, local_port := 0,
    remote_port := 0, audiosrc := none, videosrc := none, audiosink := none,
    videosink := none }

/-- Construction of an endpoint with no property given: `kms_plumber_endpoint_init`
(lines 489 to 493) leaves the zero-filled private structure as it is, and
GObject then sets every `G_PARAM_CONSTRUCT` property to its default through
`kms_plumber_endpoint_set_property`. -/
def kms_plumber_endpoint_new : KmsPlumberEndpointPrivate :=
  installed_properties.foldl
    (fun priv pv => kms_plumber_endpoint_set_property pv.1 pv.2 priv) zeroed_private

/-- The loop of lines 253 to 257, `while (!syncdata.done)` around
`g_cond_wait_until`, whose result only decides whether an error is logged.
`fuel` bounds the number of calls of `g_cond_wait_until`; `none` when the loop
is still running after that many. -/
def wait_for_current_port (sig_id end_time : Nat) : Nat → World → Option World
  | 0, w => if (syncdataOf w sig_id).done then some w else none
  | fuel + 1, w =>
    if (syncdataOf w sig_id).done then some w
    else wait_for_current_port sig_id end_time fuel (g_cond_wait_until sig_id end_time w).2

/-- The label `end:` of `kms_plumber_endpoint_create_sctp_src` (lines 263 to
269): the handler is disconnected from `*element` and `port` is returned. -/
def create_sctp_src_end (element : ElementSlot) (sig_id : Nat) (port : Int)
    (self : KmsPlumberEndpointPrivate) (w : World) :
    Int × KmsPlumberEndpointPrivate × World :=
  (port, self, g_signal_handler_disconnect (element.read self) sig_id w)

/-- Lines 223 to 269 of `kms_plumber_endpoint_create_sctp_src`, after the
switch has made the element `e`, stored it in the slot `element` and picked
`agnosticbin`. -/
def create_sctp_src_insert (env : Env) (fuel : Nat) (agnosticbin : ElemId)
    (element : ElementSlot) (e : ElemId) (self : KmsPlumberEndpointPrivate) (w : World) :
    Option (Int × KmsPlumberEndpointPrivate × World) :=
  let w := g_object_set e "bind-address" (GValue.string self.local_addr) w
  let syncdata : SyncCurrentPortData := { done := false, port := -1 }
  let (sig_id, w) := g_signal_connect e "notify::current-port" syncdata w
  let w := gst_bin_add e w
  let w := gst_element_sync_state_with_parent env e w
  let (linked, w) := gst_element_link env e agnosticbin w
  if !linked then
    let w := gst_element_set_state_null e w
    let w := gst_bin_remove e w
    let self := element.write none self
    some (create_sctp_src_end element sig_id (-1) self w)
  else
    let end_time := g_get_monotonic_time w + KMS_WAIT_TIMEOUT * G_TIME_SPAN_SECOND
    match wait_for_current_port sig_id end_time fuel w with
    | none => none
    | some w =>
      let port := (syncdataOf w sig_id).port
      some (create_sctp_src_end element sig_id port self w)

/-- The function `kms_plumber_endpoint_create_sctp_src` (lines 189 to 270).
The result is the returned `int` with the endpoint and the world after the
call, or `none` when the call has not returned within `fuel` waits. -/
def kms_plumber_endpoint_create_sctp_src (env : Env) (fuel : Nat) (type : StreamType)
    (_chanid : Nat) (self : KmsPlumberEndpointPrivate) (w : World) :
    Option (Int × KmsPlumberEndpointPrivate × World) :=
  match type with
  | StreamType.STREAM_TYPE_AUDIO =>
    if self.audiosrc ≠ none then some (-1, self, w)
    else
      let agnosticbin := env.audio_agnosticbin
      let (e, w) := gst_element_factory_make "sctpserversrc" w
      let self := { self with audiosrc := some e }
      create_sctp_src_insert env fuel agnosticbin ElementSlot.audiosrc e self w
  | StreamType.STREAM_TYPE_VIDEO =>
    if self.videosrc ≠ none then some (-1, self, w)
    else
      let agnosticbin := env.video_agnosticbin
      let (e, w) := gst_element_factory_make "sctpserversrc" w
      let self := { self with videosrc := some e }
      create_sctp_src_insert env fuel agnosticbin ElementSlot.videosrc e self w
  | StreamType.other _ => some (-1, self, w)

/-- The function `kms_plumber_endpoint_create_mcc` (lines 272 to 307). -/
def kms_plumber_endpoint_create_mcc (env : Env) (self : KmsPlumberEndpointPrivate)
    (w : World) : KmsPlumberEndpointPrivate × World :=
  if self.mcc ≠ none then (self, w)
  else
    let (mcc, w) := kms_multi_channel_controller_new self.local_addr self.local_port w
    let self := { self with mcc := some mcc }
    let w := kms_multi_channel_controller_set_create_stream_callback mcc w
    let w := kms_multi_channel_controller_start mcc w
    match self.remote_addr with
    | some remote_addr =>
      let (_connected, w) :=
        kms_multi_channel_controller_connect env mcc remote_addr self.remote_port w
      (self, w)
    | none => (self, w)

/-- The function `kms_plumber_endpoint_link_valve` (lines 309 to 341). -/
def kms_plumber_endpoint_link_valve (env : Env) (self : KmsPlumberEndpointPrivate)
    (w : World) (valve : ElemId) (sctpsink : ElementSlot) (type : StreamType) :
    KmsPlumberEndpointPrivate × World :=
  let (self, w) := kms_plumber_endpoint_create_mcc env self w
  let (port, w) := kms_multi_channel_controller_create_media_stream env self.mcc type 0 w
  if port < 0 then (self, w)
  else
    let (e, w) := gst_element_factory_make "sctpclientsink" w
    let self := sctpsink.write (some e) self
    let w := g_object_set e "host" (GValue.string self.remote_addr) w
    let w := g_object_set e "port" (GValue.int port) w
    let w := gst_bin_add e w
    let w := gst_element_sync_state_with_parent env e w
    let (linked, w) := gst_element_link env valve e w
    if !linked then (self, w)
    else (self, kms_utils_set_valve_drop valve false w)

/-- The function `kms_plumber_endpoint_audio_valve_added` (lines 343 to 350). -/
def kms_plumber_endpoint_audio_valve_added (env : Env) (self : KmsPlumberEndpointPrivate)
    (w : World) (valve : ElemId) : KmsPlumberEndpointPrivate × World :=
  kms_plumber_endpoint_link_valve env self w valve ElementSlot.audiosink
    StreamType.STREAM_TYPE_AUDIO

/-- The function `kms_plumber_endpoint_video_valve_added` (lines 358 to 365). -/
def kms_plumber_endpoint_video_valve_added (env : Env) (self : KmsPlumberEndpointPrivate)
    (w : World) (valve : ElemId) : KmsPlumberEndpointPrivate × World :=
  kms_plumber_endpoint_link_valve env self w valve ElementSlot.videosink
    StreamType.STREAM_TYPE_VIDEO

/-- The function `kms_plumber_endpoint_change_state` (lines 373 to 401). -/
def kms_plumber_endpoint_change_state (env : Env) (transition : GstStateChange)
    (self : KmsPlumberEndpointPrivate) (w : World) :
    GstStateChangeReturn × KmsPlumberEndpointPrivate × World :=
  let (self, w) :=
    match transition with
    | GstStateChange.NULL_TO_READY => kms_plumber_endpoint_create_mcc env self w
    | _ => (self, w)
  let ret := env.parent_change_state transition
  let w := w.record (Event.parent_change_state transition)
  let w :=
    match transition with
    | GstStateChange.READY_TO_NULL =>
      let w := kms_multi_channel_controller_stop self.mcc w
      kms_multi_channel_controller_unref self.mcc w
    | _ => w
  (ret, self, w)

/-! ## Vocabulary of the statements -/

/-- What the switch of lines 199 to 221 selects for a stream type: the slot the
new receiving element is stored in and the agnosticbin it is linked to; `none`
in the `default:` branch. -/
def src_selection (env : Env) : StreamType → Option (ElementSlot × ElemId)
  | StreamType.STREAM_TYPE_AUDIO => some (ElementSlot.audiosrc, env.audio_agnosticbin)
  | StreamType.STREAM_TYPE_VIDEO => some (ElementSlot.videosrc, env.video_agnosticbin)
  | StreamType.other _ => none

/-- The calls a run of `kms_plumber_endpoint_create_sctp_src` makes when the
link of the new element `e` fails, in program order. -/
def link_failure_calls (e sig_id agnosticbin : ElemId) (local_addr : Option String) :
    List Event :=
  [ Event.factory_make "sctpserversrc" e,
    Event.object_set e "bind-address" (GValue.string local_addr),
    Event.signal_connect e "notify::current-port" sig_id,
    Event.bin_add e,
    Event.sync_state_with_parent e,
    Event.element_link e agnosticbin,
    Event.set_state_null e,
    Event.bin_remove e,
    Event.signal_handler_disconnect none sig_id ]

/-- An endpoint as constructed, for the examples. -/
def example_endpoint : KmsPlumberEndpointPrivate := kms_plumber_endpoint_new

/-- A world for the examples: the endpoint's bin holds the two agnosticbins
(elements 1 and 2) and a closed valve (element 3). -/
def example_world : World :=
  { clock := 100, nextElem := 10, nextSig := 1, nextMcc := 0, bin := [1, 2, 3],
    handlers := [], pending := [], dropping := [3], trace := [] }

/-- Collaborators for the examples: every link succeeds, every receiving
element reports port 4242 seven microseconds after its start, the peer answers
stream requests with port 5000. -/
def example_env : Env :=
  { audio_agnosticbin := 1, video_agnosticbin := 2, link := fun _ _ => true,
    bind := fun _ => some (7, 4242), connect := fun _ => false,
    create_media_stream := fun _ _ => 5000,
    parent_change_state := fun _ => GstStateChangeReturn.SUCCESS }

/-- As `example_env`, but no element ever reports its bound port. -/
def never_bound_env : Env := { example_env with bind := fun _ => none }

/-- As `example_env`, but no link succeeds. -/
def no_link_env : Env := { example_env with link := fun _ _ => false }

/-- Every child of the bin is an element handed out earlier: its identifier is
below the element counter.  The calls of this file keep it so. -/
def World.allocated (w : World) : Prop :=
  ∀ x ∈ w.bin, x < w.nextElem

/-- Number of channel controllers created in a trace: the calls of
`kms_multi_channel_controller_new`. -/
def controllers_created (tr : List Event) : Nat :=
  tr.countP (fun ev => match ev with
    | Event.mcc_new _ _ _ => true
    | _ => false)

/-- Number of calls of `kms_multi_channel_controller_start` in a trace. -/
def controllers_started (tr : List Event) : Nat :=
  tr.countP (fun ev => match ev with
    | Event.mcc_start _ => true
    | _ => false)

/-- Number of calls of `kms_multi_channel_controller_connect` in a trace. -/
def connect_attempts (tr : List Event) : Nat :=
  tr.countP (fun ev => match ev with
    | Event.mcc_connect _ _ _ => true
    | _ => false)

/-- Number of calls of `kms_multi_channel_controller_create_media_stream` in a
trace. -/
def media_stream_requests (tr : List Event) : Nat :=
  tr.countP (fun ev => match ev with
    | Event.mcc_create_media_stream _ _ _ => true
    | _ => false)

/-- Number of elements made in a trace: the calls of
`gst_element_factory_make`. -/
def elements_made (tr : List Event) : Nat :=
  tr.countP (fun ev => match ev with
    | Event.factory_make _ _ => true
    | _ => false)

/-- Number of times the controller `mcc` is stopped in a trace. -/
def stops_of (mcc : MccId) (tr : List Event) : Nat :=
  tr.count (Event.mcc_stop (some mcc))

/-- Number of times a reference to the controller `mcc` is released in a
trace. -/
def unrefs_of (mcc : MccId) (tr : List Event) : Nat :=
  tr.count (Event.mcc_unref (some mcc))

/-- A sequence of state changes applied to an endpoint, one call of
`kms_plumber_endpoint_change_state` each. -/
def run_transitions (env : Env) :
    List GstStateChange → KmsPlumberEndpointPrivate → World →
      KmsPlumberEndpointPrivate × World
  | [], self, w => (self, w)
  | transition :: rest, self, w =>
    let r := kms_plumber_endpoint_change_state env transition self w
    run_transitions env rest r.2.1 r.2.2

/-- An endpoint whose audio sending slot already holds element 4. -/
def sending_endpoint : KmsPlumberEndpointPrivate :=
  { example_endpoint with mcc := some 0, remote_addr := some "peer", audiosink := some 4 }

/-- The world of `sending_endpoint`: element 4 is a child of the bin and one
controller exists. -/
def sending_world : World :=
  { example_world with nextMcc := 1, bin := [1, 2, 3, 4] }

/-- As `example_env`, but the peer refuses every stream request. -/
def refusing_env : Env := { example_env with create_media_stream := fun _ _ => -1 }

/-- Lines 223 to 232 of `kms_plumber_endpoint_create_sctp_src`: the bind
address of the element `e` is set, `syncdata` is given `done = FALSE` and
`port = -1`, and the handler is connected.  The result is the handler id and
the world in which line 234, `gst_bin_add`, is reached. -/
def create_sctp_src_subscribe (e : ElemId) (self : KmsPlumberEndpointPrivate)
    (w : World) : Nat × World :=
  let w := g_object_set e "bind-address" (GValue.string self.local_addr) w
  let syncdata : SyncCurrentPortData := { done := false, port := -1 }
  g_signal_connect e "notify::current-port" syncdata w

/-- Lines 237 to 269 of `kms_plumber_endpoint_create_sctp_src`: the link, the
teardown when it fails, the wait when it succeeds, and the label `end:`; what
is left of `create_sctp_src_insert` once the element has been started. -/
def create_sctp_src_link_and_wait (env : Env) (fuel : Nat) (agnosticbin : ElemId)
    (element : ElementSlot) (e : ElemId) (sig_id : Nat)
    (self : KmsPlumberEndpointPrivate) (w : World) :
    Option (Int × KmsPlumberEndpointPrivate × World) :=
  let (linked, w) := gst_element_link env e agnosticbin w
  if !linked then
    let w := gst_element_set_state_null e w
    let w := gst_bin_remove e w
    let self := element.write none self
    some (create_sctp_src_end element sig_id (-1) self w)
  else
    let end_time := g_get_monotonic_time w + KMS_WAIT_TIMEOUT * G_TIME_SPAN_SECOND
    match wait_for_current_port sig_id end_time fuel w with
    | none => none
    | some w =>
      let port := (syncdataOf w sig_id).port
      some (create_sctp_src_end element sig_id port self w)

/-- The calls a run of `kms_plumber_endpoint_create_sctp_src` makes when the
new element `e` reports its port while it is started and the link succeeds, in
program order. -/
def immediate_bind_calls (e sig_id agnosticbin : ElemId) (local_addr : Option String) :
    List Event :=
  [ Event.factory_make "sctpserversrc" e,
    Event.object_set e "bind-address" (GValue.string local_addr),
    Event.signal_connect e "notify::current-port" sig_id,
    Event.bin_add e,
    Event.sync_state_with_parent e,
    Event.element_link e agnosticbin,
    Event.signal_handler_disconnect (some e) sig_id ]

/-- As `example_env`, but every element reports port 4242 synchronously, while
it is being started. -/
def immediate_env : Env := { example_env with bind := fun _ => some (0, 4242) }

/-! ## Theorems -/

/-- C1. When the receiving slot of an audio or video request is occupied,
`kms_plumber_endpoint_create_sctp_src` returns -1 whatever the fuel, and the
endpoint (its four slots and its control link) and the world (no element made,
added or linked) are exactly as before. -/
theorem create_sctp_src_already_exists (env : Env) (fuel : Nat) (t : StreamType)
    (chanid : Nat) (self : KmsPlumberEndpointPrivate) (w : World)
    (slot : ElementSlot) (agnosticbin : ElemId)
    (hsel : src_selection env t = some (slot, agnosticbin))
    (hocc : slot.read self ≠ none) :
    kms_plumber_endpoint_create_sctp_src env fuel t chanid self w = some (-1, self, w) := by
  cases t with
  | STREAM_TYPE_AUDIO =>
    simp only [src_selection, Option.some.injEq, Prod.mk.injEq] at hsel
    obtain ⟨rfl, _⟩ := hsel
    simp only [ElementSlot.read] at hocc
    simp [kms_plumber_endpoint_create_sctp_src, hocc]
  | STREAM_TYPE_VIDEO =>
    simp only [src_selection, Option.some.injEq, Prod.mk.injEq] at hsel
    obtain ⟨rfl, _⟩ := hsel
    simp only [ElementSlot.read] at hocc
    simp [kms_plumber_endpoint_create_sctp_src, hocc]
  | other raw => simp [src_selection] at hsel

/-- Witness of C1: a second audio request on an endpoint whose audio receiving
slot holds element 4. -/
theorem create_sctp_src_already_exists_witness :
    kms_plumber_endpoint_create_sctp_src example_env 0 StreamType.STREAM_TYPE_AUDIO 0
      { example_endpoint with audiosrc := some 4 } example_world
      = some (-1, { example_endpoint with audiosrc := some 4 }, example_world) :=
  create_sctp_src_already_exists example_env 0 StreamType.STREAM_TYPE_AUDIO 0
    { example_endpoint with audiosrc := some 4 } example_world ElementSlot.audiosrc 1
    rfl (by simp [ElementSlot.read])

/-- A child list from which the element `e` is absent is left as it was by
adding `e` and removing it again. -/
theorem filter_append_fresh (l : List ElemId) (e : ElemId) (h : e ∉ l) :
    (l ++ [e]).filter (fun x => x != e) = l := by
  rw [List.filter_append]
  have h1 : l.filter (fun x => x != e) = l := by
    apply List.filter_eq_self.mpr
    intro a ha
    have : a ≠ e := fun hae => h (hae ▸ ha)
    simpa using this
  simp [h1]

/-- Starting an element changes neither the clock nor the bin, and records
one call. -/
theorem sync_state_with_parent_frame (env : Env) (e : ElemId) (w : World) :
    (gst_element_sync_state_with_parent env e w).clock = w.clock ∧
    (gst_element_sync_state_with_parent env e w).bin = w.bin ∧
    (gst_element_sync_state_with_parent env e w).nextSig = w.nextSig ∧
    (gst_element_sync_state_with_parent env e w).nextElem = w.nextElem ∧
    (gst_element_sync_state_with_parent env e w).dropping = w.dropping ∧
    (gst_element_sync_state_with_parent env e w).trace
      = w.trace ++ [Event.sync_state_with_parent e] := by
  unfold gst_element_sync_state_with_parent
  rcases env.bind e with _ | ⟨_ | d, p⟩ <;>
    simp [World.record, emit_notify_current_port]

/-- The link-failure path of lines 237 to 245, for any slot. -/
theorem create_sctp_src_insert_link_failure (env : Env) (fuel : Nat)
    (agnosticbin : ElemId) (element : ElementSlot) (e : ElemId)
    (self : KmsPlumberEndpointPrivate) (w : World)
    (hlink : env.link e agnosticbin = false) (hfresh : e ∉ w.bin) :
    ∃ w', create_sctp_src_insert env fuel agnosticbin element e self w
          = some (-1, element.write none self, w') ∧
      w'.bin = w.bin ∧ w'.clock = w.clock ∧
      w'.trace = w.trace ++
        [ Event.object_set e "bind-address" (GValue.string self.local_addr),
          Event.signal_connect e "notify::current-port" w.nextSig,
          Event.bin_add e,
          Event.sync_state_with_parent e,
          Event.element_link e agnosticbin,
          Event.set_state_null e,
          Event.bin_remove e,
          Event.signal_handler_disconnect none w.nextSig ] := by
  have hnone : element.read (element.write none self) = none := by
    cases element <;> rfl
  obtain ⟨h1, h2, h3, h4, h5, h6⟩ := sync_state_with_parent_frame env e
    (gst_bin_add e (g_signal_connect e "notify::current-port" { done := false, port := -1 }
      (g_object_set e "bind-address" (GValue.string self.local_addr) w)).2)
  simp only [create_sctp_src_insert, create_sctp_src_end, gst_element_link, hlink,
    hnone, g_signal_handler_disconnect, gst_bin_remove, gst_element_set_state_null,
    World.record, h1, h2, h6]
  simp [g_signal_connect, g_object_set, gst_bin_add, World.record,
    filter_append_fresh _ _ hfresh]

/-- C4. When the receiving slot of an audio or video request is empty and
linking the new element to the agnosticbin fails,
`kms_plumber_endpoint_create_sctp_src` returns -1 whatever the fuel; the
endpoint is as before the call (the slot is cleared again), the children of the
bin are as before (the element was set to the NULL state and removed), and the
calls made are exactly `link_failure_calls`, with no `g_cond_wait_until` among
them and no time spent. -/
theorem create_sctp_src_link_failure (env : Env) (fuel : Nat) (t : StreamType)
    (chanid : Nat) (self : KmsPlumberEndpointPrivate) (w : World)
    (slot : ElementSlot) (agnosticbin : ElemId)
    (hsel : src_selection env t = some (slot, agnosticbin))
    (hempty : slot.read self = none)
    (hlink : env.link w.nextElem agnosticbin = false)
    (hfresh : w.nextElem ∉ w.bin) :
    ∃ w', kms_plumber_endpoint_create_sctp_src env fuel t chanid self w
          = some (-1, self, w') ∧
      w'.bin = w.bin ∧ w'.clock = w.clock ∧
      w'.trace = w.trace ++
        link_failure_calls w.nextElem w.nextSig agnosticbin self.local_addr := by
  cases t with
  | STREAM_TYPE_AUDIO =>
    simp only [src_selection, Option.some.injEq, Prod.mk.injEq] at hsel
    obtain ⟨rfl, rfl⟩ := hsel
    simp only [ElementSlot.read] at hempty
    obtain ⟨w', h, hb, hc, ht⟩ := create_sctp_src_insert_link_failure env fuel
      env.audio_agnosticbin ElementSlot.audiosrc w.nextElem
      { self with audiosrc := some w.nextElem }
      (gst_element_factory_make "sctpserversrc" w).2 hlink
      (by simpa [gst_element_factory_make] using hfresh)
    refine ⟨w', ?_, ?_, ?_, ?_⟩
    · simp only [kms_plumber_endpoint_create_sctp_src, hempty, ne_eq, not_true_eq_false,
        if_false, gst_element_factory_make] at h ⊢
      rw [h]
      cases self
      simp_all [ElementSlot.write]
    · simpa [gst_element_factory_make] using hb
    · simpa [gst_element_factory_make] using hc
    · simpa [gst_element_factory_make, link_failure_calls] using ht
  | STREAM_TYPE_VIDEO =>
    simp only [src_selection, Option.some.injEq, Prod.mk.injEq] at hsel
    obtain ⟨rfl, rfl⟩ := hsel
    simp only [ElementSlot.read] at hempty
    obtain ⟨w', h, hb, hc, ht⟩ := create_sctp_src_insert_link_failure env fuel
      env.video_agnosticbin ElementSlot.videosrc w.nextElem
      { self with videosrc := some w.nextElem }
      (gst_element_factory_make "sctpserversrc" w).2 hlink
      (by simpa [gst_element_factory_make] using hfresh)
    refine ⟨w', ?_, ?_, ?_, ?_⟩
    · simp only [kms_plumber_endpoint_create_sctp_src, hempty, ne_eq, not_true_eq_false,
        if_false, gst_element_factory_make] at h ⊢
      rw [h]
      cases self
      simp_all [ElementSlot.write]
    · simpa [gst_element_factory_make] using hb
    · simpa [gst_element_factory_make] using hc
    · simpa [gst_element_factory_make, link_failure_calls] using ht
  | other raw => simp [src_selection] at hsel

/-- Witness of C4: a video request on the example endpoint when no link
succeeds. -/
theorem create_sctp_src_link_failure_witness :
    ∃ w', kms_plumber_endpoint_create_sctp_src no_link_env 3 StreamType.STREAM_TYPE_VIDEO 0
            example_endpoint example_world = some (-1, example_endpoint, w') ∧
      w'.bin = example_world.bin ∧ w'.clock = example_world.clock ∧
      w'.trace = example_world.trace ++
        link_failure_calls example_world.nextElem example_world.nextSig 2
          example_endpoint.local_addr :=
  create_sctp_src_link_failure no_link_env 3 StreamType.STREAM_TYPE_VIDEO 0
    example_endpoint example_world ElementSlot.videosrc 2 rfl rfl rfl (by decide)

/-- Once the handler has run, the loop of lines 253 to 257 is left at once,
whatever the fuel. -/
theorem wait_for_current_port_done (sig_id end_time fuel : Nat) (w : World)
    (h : (syncdataOf w sig_id).done = true) :
    wait_for_current_port sig_id end_time fuel w = some w := by
  cases fuel <;> simp [wait_for_current_port, h]

/-- A call of `g_cond_wait_until` for a handler that has no notification to
receive times out and leaves handlers and scheduled notifications alone. -/
theorem g_cond_wait_until_none (sig_id end_time : Nat) (w : World)
    (h : nextNotification w sig_id = none) :
    (g_cond_wait_until sig_id end_time w).2.handlers = w.handlers ∧
    (g_cond_wait_until sig_id end_time w).2.pending = w.pending := by
  have h' : nextNotification (w.record (Event.cond_wait_until end_time)) sig_id = none := h
  simp [g_cond_wait_until, h']
  exact ⟨rfl, rfl⟩

/-- The loop of lines 253 to 257 never ends when the handler has not run and
no notification is going to reach it: it is still running after any number of
calls of `g_cond_wait_until`. -/
theorem wait_for_current_port_never (sig_id end_time : Nat) :
    ∀ (fuel : Nat) (w : World), (syncdataOf w sig_id).done = false →
      nextNotification w sig_id = none →
      wait_for_current_port sig_id end_time fuel w = none := by
  intro fuel
  induction fuel with
  | zero => intro w hd _; simp [wait_for_current_port, hd]
  | succ n ih =>
    intro w hd hn
    obtain ⟨hh, hp⟩ := g_cond_wait_until_none sig_id end_time w hn
    simp only [wait_for_current_port, hd, Bool.false_eq_true, if_false]
    apply ih
    · simpa [syncdataOf, hh] using hd
    · simpa [nextNotification, hh, hp] using hn

/-- When the link succeeds, the new element never reports its port and no
notification is scheduled for it, lines 223 to 269 do not return: the result is
`none` for every fuel. -/
theorem create_sctp_src_insert_never (env : Env) (agnosticbin : ElemId)
    (element : ElementSlot) (e : ElemId) (self : KmsPlumberEndpointPrivate) (w : World)
    (hlink : env.link e agnosticbin = true) (hbind : env.bind e = none)
    (hpending : ∀ n ∈ w.pending, n.object ≠ e) (fuel : Nat) :
    create_sctp_src_insert env fuel agnosticbin element e self w = none := by
  have hfind : w.pending.find? (fun n => n.object == e) = none := by
    rw [List.find?_eq_none]
    intro n hn
    simpa using hpending n hn
  simp only [create_sctp_src_insert, gst_element_link, hlink, Bool.not_true,
    Bool.false_eq_true, if_false]
  rw [wait_for_current_port_never]
  · simp [syncdataOf, gst_element_sync_state_with_parent, hbind, World.record, gst_bin_add,
      g_signal_connect, g_object_set]
  · simp [nextNotification, gst_element_sync_state_with_parent, hbind, World.record,
      gst_bin_add, g_signal_connect, g_object_set, hfind]

/-- C2 (the code at the failing input). An audio request on the example
endpoint, with a link that succeeds and an element that never reports its bound
port: whatever the fuel, `kms_plumber_endpoint_create_sctp_src` has not
returned, so it returns neither at the deadline nor later. -/
theorem create_sctp_src_never_bound_does_not_return :
    ∀ fuel : Nat,
      kms_plumber_endpoint_create_sctp_src never_bound_env fuel
        StreamType.STREAM_TYPE_AUDIO 0 example_endpoint example_world = none := by
  intro fuel
  have h := create_sctp_src_insert_never never_bound_env 1 ElementSlot.audiosrc 10
    { example_endpoint with audiosrc := some 10 }
    (gst_element_factory_make "sctpserversrc" example_world).2 rfl rfl
    (by intro n hn; simp [gst_element_factory_make, example_world] at hn) fuel
  simpa [kms_plumber_endpoint_create_sctp_src, example_endpoint, kms_plumber_endpoint_new,
    installed_properties, kms_plumber_endpoint_set_property, zeroed_private,
    never_bound_env, example_env, gst_element_factory_make, example_world] using h

/-- Disconnecting a handler does not change the children of the bin. -/
theorem g_signal_handler_disconnect_bin (inst : Option ElemId) (sig_id : Nat) (w : World) :
    (g_signal_handler_disconnect inst sig_id w).bin = w.bin := by
  cases inst <;> rfl

/-- The success path of lines 223 to 269, for any slot: if the link succeeds
and the new element reports port `p` less than `KMS_WAIT_TIMEOUT` seconds after
its start, then with fuel for one wait the call returns `p`, leaves the
endpoint as the switch left it and has added the element to the bin. -/
theorem create_sctp_src_insert_bound (env : Env) (fuel : Nat) (agnosticbin : ElemId)
    (element : ElementSlot) (e : ElemId) (self : KmsPlumberEndpointPrivate) (w : World)
    (d : Nat) (p : Int)
    (hlink : env.link e agnosticbin = true) (hbind : env.bind e = some (d, p))
    (hd : d < KMS_WAIT_TIMEOUT * G_TIME_SPAN_SECOND) (hfuel : 1 ≤ fuel) :
    ∃ w', create_sctp_src_insert env fuel agnosticbin element e self w
          = some (p, self, w') ∧
      w'.bin = w.bin ++ [e] := by
  obtain ⟨f, rfl⟩ : ∃ f, fuel = f + 1 := ⟨fuel - 1, by omega⟩
  cases d with
  | zero =>
    simp [create_sctp_src_insert, create_sctp_src_end, gst_element_link, hlink,
      gst_element_sync_state_with_parent, hbind, emit_notify_current_port,
      sctp_server_notify_current_port, World.record, gst_bin_add, g_signal_connect,
      g_object_set, wait_for_current_port, syncdataOf, g_signal_handler_disconnect_bin]
  | succ k =>
    have hlt : w.clock + (k + 1) < max (w.clock + KMS_WAIT_TIMEOUT * G_TIME_SPAN_SECOND)
        (w.clock + 1) := lt_max_of_lt_left (by omega)
    simp [create_sctp_src_insert, create_sctp_src_end, gst_element_link, hlink,
      gst_element_sync_state_with_parent, hbind, emit_notify_current_port,
      sctp_server_notify_current_port, World.record, gst_bin_add, g_signal_connect,
      g_object_set, wait_for_current_port, syncdataOf, g_signal_handler_disconnect_bin,
      g_cond_wait_until, nextNotification, g_get_monotonic_time, hlt]
    rw [wait_for_current_port_done _ _ _ _ (by simp [syncdataOf])]
    simp [g_signal_handler_disconnect_bin]

/-- Writing a slot sets that slot and leaves the three other slots and the
control link alone. -/
theorem ElementSlot.read_write (slot : ElementSlot) (v : Option ElemId)
    (priv : KmsPlumberEndpointPrivate) :
    slot.read (slot.write v priv) = v ∧
    (∀ s : ElementSlot, s ≠ slot → s.read (slot.write v priv) = s.read priv) ∧
    (slot.write v priv).mcc = priv.mcc := by
  refine ⟨by cases slot <;> rfl, ?_, by cases slot <;> rfl⟩
  intro s hs
  cases slot <;> cases s <;> first | rfl | exact absurd rfl hs

/-- C3. When the receiving slot of an audio or video request is empty, the
link succeeds and the new element reports `current-port = p` less than
`KMS_WAIT_TIMEOUT` seconds after its start, `kms_plumber_endpoint_create_sctp_src`
(with fuel for one wait) returns exactly `p`; on return the receiving slot of
the type holds the new element, the three other slots and the control link are
as before, and the element is a child of the bin. -/
theorem create_sctp_src_returns_bound_port (env : Env) (fuel : Nat) (t : StreamType)
    (chanid : Nat) (self : KmsPlumberEndpointPrivate) (w : World)
    (slot : ElementSlot) (agnosticbin : ElemId) (d : Nat) (p : Int)
    (hsel : src_selection env t = some (slot, agnosticbin))
    (hempty : slot.read self = none)
    (hlink : env.link w.nextElem agnosticbin = true)
    (hbind : env.bind w.nextElem = some (d, p))
    (hd : d < KMS_WAIT_TIMEOUT * G_TIME_SPAN_SECOND) (hfuel : 1 ≤ fuel) :
    ∃ self' w', kms_plumber_endpoint_create_sctp_src env fuel t chanid self w
          = some (p, self', w') ∧
      self' = slot.write (some w.nextElem) self ∧
      slot.read self' = some w.nextElem ∧
      (∀ s : ElementSlot, s ≠ slot → s.read self' = s.read self) ∧
      self'.mcc = self.mcc ∧
      w'.bin = w.bin ++ [w.nextElem] := by
  obtain ⟨hr, hothers, hmcc⟩ := ElementSlot.read_write slot (some w.nextElem) self
  cases t with
  | STREAM_TYPE_AUDIO =>
    simp only [src_selection, Option.some.injEq, Prod.mk.injEq] at hsel
    obtain ⟨rfl, rfl⟩ := hsel
    simp only [ElementSlot.read] at hempty
    obtain ⟨w', h, hb⟩ := create_sctp_src_insert_bound env fuel
      env.audio_agnosticbin ElementSlot.audiosrc w.nextElem
      { self with audiosrc := some w.nextElem }
      (gst_element_factory_make "sctpserversrc" w).2 d p hlink hbind hd hfuel
    refine ⟨_, w', ?_, rfl, hr, hothers, hmcc, by simpa [gst_element_factory_make] using hb⟩
    simp only [kms_plumber_endpoint_create_sctp_src, hempty, ne_eq, not_true_eq_false,
      if_false, gst_element_factory_make] at h ⊢
    rw [h]
    rfl
  | STREAM_TYPE_VIDEO =>
    simp only [src_selection, Option.some.injEq, Prod.mk.injEq] at hsel
    obtain ⟨rfl, rfl⟩ := hsel
    simp only [ElementSlot.read] at hempty
    obtain ⟨w', h, hb⟩ := create_sctp_src_insert_bound env fuel
      env.video_agnosticbin ElementSlot.videosrc w.nextElem
      { self with videosrc := some w.nextElem }
      (gst_element_factory_make "sctpserversrc" w).2 d p hlink hbind hd hfuel
    refine ⟨_, w', ?_, rfl, hr, hothers, hmcc, by simpa [gst_element_factory_make] using hb⟩
    simp only [kms_plumber_endpoint_create_sctp_src, hempty, ne_eq, not_true_eq_false,
      if_false, gst_element_factory_make] at h ⊢
    rw [h]
    rfl
  | other raw => simp [src_selection] at hsel

/-- Witness of C3: an audio request on the example endpoint, the element
reporting port 4242 seven microseconds after its start. -/
theorem create_sctp_src_returns_bound_port_witness :
    ∃ self' w', kms_plumber_endpoint_create_sctp_src example_env 1
            StreamType.STREAM_TYPE_AUDIO 0 example_endpoint example_world
          = some (4242, self', w') ∧
      self' = ElementSlot.audiosrc.write (some example_world.nextElem) example_endpoint ∧
      ElementSlot.audiosrc.read self' = some example_world.nextElem ∧
      (∀ s : ElementSlot, s ≠ ElementSlot.audiosrc →
        s.read self' = s.read example_endpoint) ∧
      self'.mcc = example_endpoint.mcc ∧
      w'.bin = example_world.bin ++ [example_world.nextElem] :=
  create_sctp_src_returns_bound_port example_env 1 StreamType.STREAM_TYPE_AUDIO 0
    example_endpoint example_world ElementSlot.audiosrc 1 7 4242 rfl rfl rfl rfl
    (by decide) (by decide)

/-- C5. For every endpoint state, a second call of
`kms_plumber_endpoint_create_mcc` right after a first one changes nothing:
after the first call the control link is present, and over the two calls one
controller is created and started when there was no control link, none when
there was one.  Whenever the control link is present the call is a no-op: the
endpoint and the world (hence the trace: nothing created, started or
connected) are unchanged.  The same count holds for two `NULL_TO_READY`
transitions in a row through `kms_plumber_endpoint_change_state`. -/
theorem create_mcc_idempotent (env : Env) (self : KmsPlumberEndpointPrivate) (w : World) :
    kms_plumber_endpoint_create_mcc env (kms_plumber_endpoint_create_mcc env self w).1
        (kms_plumber_endpoint_create_mcc env self w).2
      = kms_plumber_endpoint_create_mcc env self w ∧
    (kms_plumber_endpoint_create_mcc env self w).1.mcc ≠ none ∧
    controllers_created
        (kms_plumber_endpoint_create_mcc env (kms_plumber_endpoint_create_mcc env self w).1
          (kms_plumber_endpoint_create_mcc env self w).2).2.trace
      = controllers_created w.trace + (if self.mcc = none then 1 else 0) ∧
    controllers_started
        (kms_plumber_endpoint_create_mcc env (kms_plumber_endpoint_create_mcc env self w).1
          (kms_plumber_endpoint_create_mcc env self w).2).2.trace
      = controllers_started w.trace + (if self.mcc = none then 1 else 0) ∧
    (self.mcc ≠ none → kms_plumber_endpoint_create_mcc env self w = (self, w)) ∧
    controllers_created
        (run_transitions env [GstStateChange.NULL_TO_READY, GstStateChange.NULL_TO_READY]
          self w).2.trace
      = controllers_created w.trace + (if self.mcc = none then 1 else 0) := by
  by_cases h : self.mcc = none
  · cases hr : self.remote_addr <;>
      simp [kms_plumber_endpoint_create_mcc, h, hr, kms_multi_channel_controller_new,
        kms_multi_channel_controller_set_create_stream_callback,
        kms_multi_channel_controller_start, kms_multi_channel_controller_connect,
        World.record, controllers_created, controllers_started, List.countP_cons,
        run_transitions, kms_plumber_endpoint_change_state]
  · simp [kms_plumber_endpoint_create_mcc, h, run_transitions,
      kms_plumber_endpoint_change_state, World.record, controllers_created,
      List.countP_cons]

/-- Witness of C5: two activations of the example endpoint, which has no
control link, create exactly one controller. -/
theorem create_mcc_idempotent_witness :
    controllers_created
        (kms_plumber_endpoint_create_mcc example_env
          (kms_plumber_endpoint_create_mcc example_env example_endpoint example_world).1
          (kms_plumber_endpoint_create_mcc example_env example_endpoint example_world).2).2.trace
      = 1 :=
  (create_mcc_idempotent example_env example_endpoint example_world).2.2.1

/-- C9. When there is no control link, `kms_plumber_endpoint_create_mcc`
creates the controller with the local address and the local port, registers the
stream callback, starts it, and calls connect with the remote address and the
remote port exactly when a remote address is set (one connect attempt then,
none otherwise); the endpoint afterwards is the one before with the control
link set, and neither it nor the world depends on what the collaborators
answer, the result of connect included. -/
theorem create_mcc_creates_link (env : Env) (self : KmsPlumberEndpointPrivate) (w : World)
    (h : self.mcc = none) :
    kms_plumber_endpoint_create_mcc env self w
      = ({ self with mcc := some w.nextMcc },
         { w with nextMcc := w.nextMcc + 1,
                  trace := w.trace ++
                    [ Event.mcc_new w.nextMcc self.local_addr self.local_port,
                      Event.mcc_set_create_stream_callback w.nextMcc,
                      Event.mcc_start w.nextMcc ] ++
                    (match self.remote_addr with
                     | some remote_addr =>
                       [Event.mcc_connect w.nextMcc remote_addr self.remote_port]
                     | none => []) }) ∧
    connect_attempts (kms_plumber_endpoint_create_mcc env self w).2.trace
      = connect_attempts w.trace + (if self.remote_addr = none then 0 else 1) ∧
    ∀ env' : Env, kms_plumber_endpoint_create_mcc env' self w
      = kms_plumber_endpoint_create_mcc env self w := by
  refine ⟨?_, ?_, ?_⟩
  · cases hr : self.remote_addr <;>
      simp [kms_plumber_endpoint_create_mcc, h, hr, kms_multi_channel_controller_new,
        kms_multi_channel_controller_set_create_stream_callback,
        kms_multi_channel_controller_start, kms_multi_channel_controller_connect,
        World.record]
  · cases hr : self.remote_addr <;>
      simp [kms_plumber_endpoint_create_mcc, h, hr, kms_multi_channel_controller_new,
        kms_multi_channel_controller_set_create_stream_callback,
        kms_multi_channel_controller_start, kms_multi_channel_controller_connect,
        World.record, connect_attempts, List.countP_cons]
  · intro env'
    cases hr : self.remote_addr <;>
      simp [kms_plumber_endpoint_create_mcc, h, hr, kms_multi_channel_controller_new,
        kms_multi_channel_controller_set_create_stream_callback,
        kms_multi_channel_controller_start, kms_multi_channel_controller_connect,
        World.record]

/-- Witness of C9: the example endpoint with the remote address "peer" set;
the connect is attempted, and its result (refused by `example_env`, accepted by
the other collaborators) makes no difference. -/
theorem create_mcc_creates_link_witness :
    kms_plumber_endpoint_create_mcc example_env
        { example_endpoint with remote_addr := some "peer" } example_world
      = ({ example_endpoint with remote_addr := some "peer", mcc := some 0 },
         { example_world with
             nextMcc := 1,
             trace := [ Event.mcc_new 0 (some "localhost") 0,
                        Event.mcc_set_create_stream_callback 0,
                        Event.mcc_start 0,
                        Event.mcc_connect 0 "peer" 0 ] }) ∧
    kms_plumber_endpoint_create_mcc { example_env with connect := fun _ => true }
        { example_endpoint with remote_addr := some "peer" } example_world
      = kms_plumber_endpoint_create_mcc example_env
        { example_endpoint with remote_addr := some "peer" } example_world :=
  ⟨(create_mcc_creates_link example_env
      { example_endpoint with remote_addr := some "peer" } example_world rfl).1,
   (create_mcc_creates_link example_env
      { example_endpoint with remote_addr := some "peer" } example_world rfl).2.2 _⟩

/-- Starting an element does not change the children of the bin. -/
theorem sync_state_with_parent_bin (env : Env) (e : ElemId) (w : World) :
    (gst_element_sync_state_with_parent env e w).bin = w.bin :=
  (sync_state_with_parent_frame env e w).2.1

/-- Starting an element does not change the state of the valves. -/
theorem sync_state_with_parent_dropping (env : Env) (e : ElemId) (w : World) :
    (gst_element_sync_state_with_parent env e w).dropping = w.dropping :=
  (sync_state_with_parent_frame env e w).2.2.2.2.1

/-- Starting an element records one call. -/
theorem sync_state_with_parent_trace (env : Env) (e : ElemId) (w : World) :
    (gst_element_sync_state_with_parent env e w).trace
      = w.trace ++ [Event.sync_state_with_parent e] :=
  (sync_state_with_parent_frame env e w).2.2.2.2.2

/-- Creating the control link leaves the four slots, the remote address, the
bin, the valves and the element counter alone, and requests no stream and makes
no element. -/
theorem create_mcc_frame (env : Env) (self : KmsPlumberEndpointPrivate) (w : World) :
    (∀ s : ElementSlot, s.read (kms_plumber_endpoint_create_mcc env self w).1 = s.read self) ∧
    (kms_plumber_endpoint_create_mcc env self w).1.remote_addr = self.remote_addr ∧
    (kms_plumber_endpoint_create_mcc env self w).2.bin = w.bin ∧
    (kms_plumber_endpoint_create_mcc env self w).2.dropping = w.dropping ∧
    (kms_plumber_endpoint_create_mcc env self w).2.nextElem = w.nextElem ∧
    media_stream_requests (kms_plumber_endpoint_create_mcc env self w).2.trace
      = media_stream_requests w.trace ∧
    elements_made (kms_plumber_endpoint_create_mcc env self w).2.trace
      = elements_made w.trace := by
  by_cases h : self.mcc = none
  · cases hr : self.remote_addr <;>
      simp [kms_plumber_endpoint_create_mcc, h, hr, kms_multi_channel_controller_new,
        kms_multi_channel_controller_set_create_stream_callback,
        kms_multi_channel_controller_start, kms_multi_channel_controller_connect,
        World.record, media_stream_requests, elements_made, List.countP_cons] <;>
      intro s <;> cases s <;> rfl
  · simp [kms_plumber_endpoint_create_mcc, h]

/-- The two answers of the peer in `kms_plumber_endpoint_link_valve`, for any
slot, stream type and valve. -/
theorem link_valve_core (env : Env) (self : KmsPlumberEndpointPrivate)
    (w : World) (valve : ElemId) (sctpsink : ElementSlot) (type : StreamType) :
    media_stream_requests
        (kms_plumber_endpoint_link_valve env self w valve sctpsink type).2.trace
      = media_stream_requests w.trace + 1 ∧
    Event.mcc_create_media_stream (kms_plumber_endpoint_create_mcc env self w).1.mcc type 0
      ∈ (kms_plumber_endpoint_link_valve env self w valve sctpsink type).2.trace ∧
    (env.create_media_stream type 0 < 0 →
      kms_plumber_endpoint_link_valve env self w valve sctpsink type
        = ((kms_plumber_endpoint_create_mcc env self w).1,
           (kms_plumber_endpoint_create_mcc env self w).2.record
             (Event.mcc_create_media_stream
               (kms_plumber_endpoint_create_mcc env self w).1.mcc type 0)) ∧
      sctpsink.read (kms_plumber_endpoint_link_valve env self w valve sctpsink type).1
        = sctpsink.read self ∧
      elements_made (kms_plumber_endpoint_link_valve env self w valve sctpsink type).2.trace
        = elements_made w.trace ∧
      (kms_plumber_endpoint_link_valve env self w valve sctpsink type).2.bin = w.bin ∧
      (kms_plumber_endpoint_link_valve env self w valve sctpsink type).2.dropping
        = w.dropping) ∧
    (0 ≤ env.create_media_stream type 0 →
      (kms_plumber_endpoint_link_valve env self w valve sctpsink type).1
        = sctpsink.write (some w.nextElem) (kms_plumber_endpoint_create_mcc env self w).1 ∧
      sctpsink.read (kms_plumber_endpoint_link_valve env self w valve sctpsink type).1
        = some w.nextElem ∧
      elements_made (kms_plumber_endpoint_link_valve env self w valve sctpsink type).2.trace
        = elements_made w.trace + 1 ∧
      Event.factory_make "sctpclientsink" w.nextElem
        ∈ (kms_plumber_endpoint_link_valve env self w valve sctpsink type).2.trace ∧
      Event.object_set w.nextElem "host" (GValue.string self.remote_addr)
        ∈ (kms_plumber_endpoint_link_valve env self w valve sctpsink type).2.trace ∧
      Event.object_set w.nextElem "port" (GValue.int (env.create_media_stream type 0))
        ∈ (kms_plumber_endpoint_link_valve env self w valve sctpsink type).2.trace ∧
      (kms_plumber_endpoint_link_valve env self w valve sctpsink type).2.bin
        = w.bin ++ [w.nextElem] ∧
      (env.link valve w.nextElem = true →
        valve ∉ (kms_plumber_endpoint_link_valve env self w valve sctpsink type).2.dropping) ∧
      (env.link valve w.nextElem = false →
        (kms_plumber_endpoint_link_valve env self w valve sctpsink type).2.dropping
          = w.dropping) ∧
      (valve ∈ w.dropping →
        (valve ∉ (kms_plumber_endpoint_link_valve env self w valve sctpsink type).2.dropping
          ↔ env.link valve w.nextElem = true))) := by
  obtain ⟨hslots, hraddr, hbin, hdrop, hnext, hreq, hmade⟩ := create_mcc_frame env self w
  rcases hm : kms_plumber_endpoint_create_mcc env self w with ⟨self1, w1⟩
  rw [hm] at hslots hraddr hbin hdrop hnext hreq hmade
  simp only at hslots hraddr hbin hdrop hnext hreq hmade
  have hw := (ElementSlot.read_write sctpsink (some w.nextElem) self1).1
  have hwr : (sctpsink.write (some w.nextElem) self1).remote_addr = self.remote_addr := by
    rw [← hraddr]; cases sctpsink <;> rfl
  simp only [media_stream_requests, elements_made] at hreq hmade
  by_cases hp : env.create_media_stream type 0 < 0
  · have hp' : ¬ 0 ≤ env.create_media_stream type 0 := by omega
    simp [kms_plumber_endpoint_link_valve, hm, hp, hp',
      kms_multi_channel_controller_create_media_stream, World.record, hslots, hbin, hdrop,
      media_stream_requests, elements_made, List.countP_cons, hreq, hmade]
  · have hp' : 0 ≤ env.create_media_stream type 0 := by omega
    by_cases hl : env.link valve w.nextElem = true
    · simp [kms_plumber_endpoint_link_valve, hm, hp, hp', hl, hnext, hw, hwr,
        kms_multi_channel_controller_create_media_stream, World.record, hslots, hbin, hdrop,
        media_stream_requests, elements_made, List.countP_cons, hreq, hmade,
        gst_element_factory_make, g_object_set, gst_bin_add, gst_element_link,
        kms_utils_set_valve_drop, sync_state_with_parent_bin,
        sync_state_with_parent_dropping, sync_state_with_parent_trace]
    · have hl' : env.link valve w.nextElem = false := by simpa using hl
      simp [kms_plumber_endpoint_link_valve, hm, hp, hp', hl', hnext, hw, hwr,
        kms_multi_channel_controller_create_media_stream, World.record, hslots, hbin, hdrop,
        media_stream_requests, elements_made, List.countP_cons, hreq, hmade,
        gst_element_factory_make, g_object_set, gst_bin_add, gst_element_link,
        kms_utils_set_valve_drop, sync_state_with_parent_bin,
        sync_state_with_parent_dropping, sync_state_with_parent_trace]

/-- C7. Postcondition of `kms_plumber_endpoint_link_valve` for every slot,
stream type and valve.  The peer is asked for a stream exactly once, for the
given type and channel 0.  If the answer is negative, the endpoint is the one
`kms_plumber_endpoint_create_mcc` left: no element is made, the slot, the bin
and the valves are unchanged.  If the answer is a port `p` with `0 ≤ p`, a new
`sctpclientsink` element with `host` the remote address and `port` `p` is
stored in the slot and added to the bin, whether the link succeeds or not, and
the valve is opened exactly when the link of the valve to the element
succeeds. -/
theorem link_valve_postcondition (env : Env) (self : KmsPlumberEndpointPrivate)
    (w : World) (valve : ElemId) (sctpsink : ElementSlot) (type : StreamType) :
    media_stream_requests
        (kms_plumber_endpoint_link_valve env self w valve sctpsink type).2.trace
      = media_stream_requests w.trace + 1 ∧
    Event.mcc_create_media_stream (kms_plumber_endpoint_create_mcc env self w).1.mcc type 0
      ∈ (kms_plumber_endpoint_link_valve env self w valve sctpsink type).2.trace ∧
    (env.create_media_stream type 0 < 0 →
      kms_plumber_endpoint_link_valve env self w valve sctpsink type
        = ((kms_plumber_endpoint_create_mcc env self w).1,
           (kms_plumber_endpoint_create_mcc env self w).2.record
             (Event.mcc_create_media_stream
               (kms_plumber_endpoint_create_mcc env self w).1.mcc type 0)) ∧
      sctpsink.read (kms_plumber_endpoint_link_valve env self w valve sctpsink type).1
        = sctpsink.read self ∧
      elements_made (kms_plumber_endpoint_link_valve env self w valve sctpsink type).2.trace
        = elements_made w.trace ∧
      (kms_plumber_endpoint_link_valve env self w valve sctpsink type).2.bin = w.bin ∧
      (kms_plumber_endpoint_link_valve env self w valve sctpsink type).2.dropping
        = w.dropping) ∧
    (0 ≤ env.create_media_stream type 0 →
      (kms_plumber_endpoint_link_valve env self w valve sctpsink type).1
        = sctpsink.write (some w.nextElem) (kms_plumber_endpoint_create_mcc env self w).1 ∧
      sctpsink.read (kms_plumber_endpoint_link_valve env self w valve sctpsink type).1
        = some w.nextElem ∧
      elements_made (kms_plumber_endpoint_link_valve env self w valve sctpsink type).2.trace
        = elements_made w.trace + 1 ∧
      Event.factory_make "sctpclientsink" w.nextElem
        ∈ (kms_plumber_endpoint_link_valve env self w valve sctpsink type).2.trace ∧
      Event.object_set w.nextElem "host" (GValue.string self.remote_addr)
        ∈ (kms_plumber_endpoint_link_valve env self w valve sctpsink type).2.trace ∧
      Event.object_set w.nextElem "port" (GValue.int (env.create_media_stream type 0))
        ∈ (kms_plumber_endpoint_link_valve env self w valve sctpsink type).2.trace ∧
      (kms_plumber_endpoint_link_valve env self w valve sctpsink type).2.bin
        = w.bin ++ [w.nextElem] ∧
      (env.link valve w.nextElem = true →
        valve ∉ (kms_plumber_endpoint_link_valve env self w valve sctpsink type).2.dropping) ∧
      (env.link valve w.nextElem = false →
        (kms_plumber_endpoint_link_valve env self w valve sctpsink type).2.dropping
          = w.dropping) ∧
      (valve ∈ w.dropping →
        (valve ∉ (kms_plumber_endpoint_link_valve env self w valve sctpsink type).2.dropping
          ↔ env.link valve w.nextElem = true))) ∧
    kms_plumber_endpoint_audio_valve_added env self w valve
      = kms_plumber_endpoint_link_valve env self w valve ElementSlot.audiosink
          StreamType.STREAM_TYPE_AUDIO ∧
    kms_plumber_endpoint_video_valve_added env self w valve
      = kms_plumber_endpoint_link_valve env self w valve ElementSlot.videosink
          StreamType.STREAM_TYPE_VIDEO := by
  refine ⟨?_, ?_, ?_, ?_, rfl, rfl⟩ <;>
    obtain ⟨h1, h2, h3, h4⟩ := link_valve_core env self w valve sctpsink type <;>
    assumption

/-- Witness of C7: the audio valve 3 of the example endpoint becomes active.
When the peer answers port 5000 and the link succeeds, the new element 10 is
stored in the audio sending slot and the valve is opened; when the peer
refuses, the slot stays empty and the valve stays closed. -/
theorem link_valve_postcondition_witness :
    ((kms_plumber_endpoint_link_valve example_env example_endpoint
      example_world 3 ElementSlot.audiosink StreamType.STREAM_TYPE_AUDIO).1.audiosink = some 10 ∧
     (3 : ElemId) ∉ (kms_plumber_endpoint_link_valve example_env example_endpoint
      example_world 3 ElementSlot.audiosink StreamType.STREAM_TYPE_AUDIO).2.dropping) ∧
    ((kms_plumber_endpoint_link_valve refusing_env example_endpoint
      example_world 3 ElementSlot.audiosink StreamType.STREAM_TYPE_AUDIO).1.audiosink = none ∧
     (kms_plumber_endpoint_link_valve refusing_env example_endpoint
      example_world 3 ElementSlot.audiosink StreamType.STREAM_TYPE_AUDIO).2.dropping = [3]) :=
  ⟨⟨((link_valve_postcondition example_env example_endpoint example_world 3
        ElementSlot.audiosink StreamType.STREAM_TYPE_AUDIO).2.2.2.1 (by decide)).2.1,
    ((link_valve_postcondition example_env example_endpoint example_world 3
        ElementSlot.audiosink StreamType.STREAM_TYPE_AUDIO).2.2.2.1
        (by decide)).2.2.2.2.2.2.2.1 rfl⟩,
   ⟨((link_valve_postcondition refusing_env example_endpoint example_world 3
        ElementSlot.audiosink StreamType.STREAM_TYPE_AUDIO).2.2.1 (by decide)).2.1,
    ((link_valve_postcondition refusing_env example_endpoint example_world 3
        ElementSlot.audiosink StreamType.STREAM_TYPE_AUDIO).2.2.1 (by decide)).2.2.2.2⟩⟩

/-- C6 (the code at the failing input). The audio valve 3 becomes active on an
endpoint whose audio sending slot already holds element 4, and the peer
answers port 5000: `kms_plumber_endpoint_audio_valve_added` makes a second
sending element, element 10, adds it to the bin next to element 4 and
overwrites the slot with it. -/
theorem audio_valve_added_overwrites_sending_slot :
    sending_endpoint.audiosink = some 4 ∧
    (kms_plumber_endpoint_audio_valve_added example_env sending_endpoint sending_world 3).1.audiosink
      = some 10 ∧
    (kms_plumber_endpoint_audio_valve_added example_env sending_endpoint sending_world 3).2.bin
      = [1, 2, 3, 4, 10] ∧
    elements_made
      (kms_plumber_endpoint_audio_valve_added example_env sending_endpoint sending_world 3).2.trace
      = elements_made sending_world.trace + 1 := by
  decide

/-- C8 (the code at the failing input). Activation, deactivation, activation,
deactivation on a fresh endpoint: one controller is created, and it is stopped
twice and released twice.  After the first activation and deactivation it has
been stopped and released once and the control link pointer is still set, so
the second activation creates nothing and the second deactivation stops and
releases the released controller again. -/
theorem reactivation_releases_controller_twice :
    controllers_created
      (run_transitions example_env
        [GstStateChange.NULL_TO_READY, GstStateChange.READY_TO_NULL,
         GstStateChange.NULL_TO_READY, GstStateChange.READY_TO_NULL]
        kms_plumber_endpoint_new example_world).2.trace = 1 ∧
    stops_of 0
      (run_transitions example_env
        [GstStateChange.NULL_TO_READY, GstStateChange.READY_TO_NULL,
         GstStateChange.NULL_TO_READY, GstStateChange.READY_TO_NULL]
        kms_plumber_endpoint_new example_world).2.trace = 2 ∧
    unrefs_of 0
      (run_transitions example_env
        [GstStateChange.NULL_TO_READY, GstStateChange.READY_TO_NULL,
         GstStateChange.NULL_TO_READY, GstStateChange.READY_TO_NULL]
        kms_plumber_endpoint_new example_world).2.trace = 2 ∧
    (run_transitions example_env
        [GstStateChange.NULL_TO_READY, GstStateChange.READY_TO_NULL]
        kms_plumber_endpoint_new example_world).1.mcc = some 0 ∧
    stops_of 0
      (run_transitions example_env
        [GstStateChange.NULL_TO_READY, GstStateChange.READY_TO_NULL]
        kms_plumber_endpoint_new example_world).2.trace = 1 ∧
    unrefs_of 0
      (run_transitions example_env
        [GstStateChange.NULL_TO_READY, GstStateChange.READY_TO_NULL]
        kms_plumber_endpoint_new example_world).2.trace = 1 := by
  decide

/-- C10 (the code at the failing input). An endpoint constructed with no
property given has local address "localhost", local port 0 and no remote
address, but its remote port is 0, the default given to
`g_param_spec_int` on line 453, not `SCTP_DEFAULT_REMOTE_PORT`, which is 9999
and is used nowhere. -/
theorem fresh_endpoint_remote_port_is_zero :
    kms_plumber_endpoint_new.local_addr = some "localhost" ∧
    kms_plumber_endpoint_new.local_port = 0 ∧
    kms_plumber_endpoint_new.remote_addr = none ∧
    kms_plumber_endpoint_new.remote_port = 0 ∧
    SCTP_DEFAULT_REMOTE_PORT = 9999 ∧
    (kms_plumber_endpoint_new.remote_port : Int) ≠ SCTP_DEFAULT_REMOTE_PORT := by
  decide


/-- A wait changes neither the children of the bin nor the element counter. -/
theorem g_cond_wait_until_frame (sig_id end_time : Nat) (w : World) :
    (g_cond_wait_until sig_id end_time w).2.bin = w.bin ∧
    (g_cond_wait_until sig_id end_time w).2.nextElem = w.nextElem := by
  unfold g_cond_wait_until
  simp only
  split
  · split <;> exact ⟨rfl, rfl⟩
  · exact ⟨rfl, rfl⟩

/-- The loop of lines 253 to 257 changes neither the children of the bin nor
the element counter. -/
theorem wait_for_current_port_frame (sig_id end_time : Nat) :
    ∀ (fuel : Nat) (w w' : World), wait_for_current_port sig_id end_time fuel w = some w' →
      w'.bin = w.bin ∧ w'.nextElem = w.nextElem := by
  intro fuel
  induction fuel with
  | zero =>
    intro w w' h
    by_cases hd : (syncdataOf w sig_id).done = true
    · simp [wait_for_current_port, hd] at h
      subst h
      exact ⟨rfl, rfl⟩
    · simp [wait_for_current_port, hd] at h
  | succ n ih =>
    intro w w' h
    by_cases hd : (syncdataOf w sig_id).done = true
    · simp [wait_for_current_port, hd] at h
      subst h
      exact ⟨rfl, rfl⟩
    · simp only [wait_for_current_port, hd, Bool.false_eq_true, if_false] at h
      obtain ⟨h1, h2⟩ := ih _ _ h
      obtain ⟨h3, h4⟩ := g_cond_wait_until_frame sig_id end_time w
      exact ⟨h1.trans h3, h2.trans h4⟩

/-- When the element counter bounds the children of the bin, the element the
factory hands out next is not a child already. -/
theorem allocated_fresh (w : World) (h : w.allocated) : w.nextElem ∉ w.bin :=
  fun hin => Nat.lt_irrefl _ (h _ hin)

/-- Disconnecting a handler does not change the element counter. -/
theorem g_signal_handler_disconnect_nextElem (inst : Option ElemId) (sig_id : Nat)
    (w : World) : (g_signal_handler_disconnect inst sig_id w).nextElem = w.nextElem := by
  cases inst <;> rfl

/-- Lines 223 to 269 leave the element counter alone and add at most the
element `e` to the children of the bin. -/
theorem create_sctp_src_insert_frame (env : Env) (fuel : Nat) (agnosticbin : ElemId)
    (element : ElementSlot) (e : ElemId) (self self' : KmsPlumberEndpointPrivate)
    (w w' : World) (r : Int)
    (hr : create_sctp_src_insert env fuel agnosticbin element e self w = some (r, self', w')) :
    w'.nextElem = w.nextElem ∧ ∀ x ∈ w'.bin, x ∈ w.bin ∨ x = e := by
  obtain ⟨_, h2, _, h4, _, _⟩ := sync_state_with_parent_frame env e
    (gst_bin_add e (g_signal_connect e "notify::current-port" { done := false, port := -1 }
      (g_object_set e "bind-address" (GValue.string self.local_addr) w)).2)
  simp only [create_sctp_src_insert, gst_element_link] at hr
  by_cases hl : env.link e agnosticbin = true
  · simp only [hl, Bool.not_true, Bool.false_eq_true, if_false, World.record] at hr
    split at hr
    · exact absurd hr (by simp)
    · rename_i w2 hw
      obtain ⟨hb, hn⟩ := wait_for_current_port_frame _ _ _ _ _ hw
      simp only [create_sctp_src_end, Option.some.injEq, Prod.mk.injEq] at hr
      obtain ⟨_, _, rfl⟩ := hr
      rw [g_signal_handler_disconnect_nextElem, g_signal_handler_disconnect_bin, hb, hn]
      simp only [h2, h4]
      simp [gst_bin_add, g_signal_connect, g_object_set, World.record]
  · have hl' : env.link e agnosticbin = false := by simpa using hl
    simp only [hl', Bool.not_false, if_true, create_sctp_src_end, Option.some.injEq,
      Prod.mk.injEq] at hr
    obtain ⟨_, _, rfl⟩ := hr
    rw [g_signal_handler_disconnect_nextElem, g_signal_handler_disconnect_bin]
    simp only [gst_bin_remove, gst_element_set_state_null, World.record, h2, h4]
    simp only [gst_bin_add, g_signal_connect, g_object_set, World.record]
    refine ⟨trivial, ?_⟩
    intro x hx
    have := (List.mem_filter.mp hx).1
    simpa using this

/-- `kms_plumber_endpoint_create_sctp_src` keeps the children of the bin below
the element counter. -/
theorem create_sctp_src_allocated (env : Env) (fuel : Nat) (t : StreamType) (chanid : Nat)
    (self self' : KmsPlumberEndpointPrivate) (w w' : World) (r : Int)
    (h : w.allocated)
    (hr : kms_plumber_endpoint_create_sctp_src env fuel t chanid self w = some (r, self', w')) :
    w'.allocated := by
  have key : ∀ (agnosticbin : ElemId) (element : ElementSlot) (s : KmsPlumberEndpointPrivate),
      create_sctp_src_insert env fuel agnosticbin element w.nextElem s
        (gst_element_factory_make "sctpserversrc" w).2 = some (r, self', w') →
      w'.allocated := by
    intro agnosticbin element s hs
    obtain ⟨hn, hb⟩ := create_sctp_src_insert_frame _ _ _ _ _ _ _ _ _ _ hs
    intro x hx
    rw [hn]
    rcases hb x hx with hx | rfl
    · exact Nat.lt_succ_of_lt (h x hx)
    · exact Nat.lt_succ_self _
  cases t with
  | STREAM_TYPE_AUDIO =>
    by_cases ho : self.audiosrc = none
    · simp only [kms_plumber_endpoint_create_sctp_src, ho, ne_eq, not_true_eq_false,
        if_false] at hr
      exact key _ _ _ hr
    · simp [kms_plumber_endpoint_create_sctp_src, ho] at hr
      obtain ⟨_, _, rfl⟩ := hr
      exact h
  | STREAM_TYPE_VIDEO =>
    by_cases ho : self.videosrc = none
    · simp only [kms_plumber_endpoint_create_sctp_src, ho, ne_eq, not_true_eq_false,
        if_false] at hr
      exact key _ _ _ hr
    · simp [kms_plumber_endpoint_create_sctp_src, ho] at hr
      obtain ⟨_, _, rfl⟩ := hr
      exact h
  | other raw =>
    simp [kms_plumber_endpoint_create_sctp_src] at hr
    obtain ⟨_, _, rfl⟩ := hr
    exact h

/-- `kms_plumber_endpoint_link_valve` keeps the children of the bin below the
element counter. -/
theorem link_valve_allocated (env : Env) (self : KmsPlumberEndpointPrivate) (w : World)
    (valve : ElemId) (sctpsink : ElementSlot) (type : StreamType) (h : w.allocated) :
    (kms_plumber_endpoint_link_valve env self w valve sctpsink type).2.allocated := by
  obtain ⟨_, _, hbin, _, hnext, _, _⟩ := create_mcc_frame env self w
  rcases hm : kms_plumber_endpoint_create_mcc env self w with ⟨self1, w1⟩
  rw [hm] at hbin hnext
  simp only at hbin hnext
  have hs := sync_state_with_parent_frame env
  by_cases hp : env.create_media_stream type 0 < 0
  · simp only [kms_plumber_endpoint_link_valve, hm,
      kms_multi_channel_controller_create_media_stream, hp, if_true, World.record]
    intro x hx
    exact hnext ▸ h x (hbin ▸ hx)
  · intro x hx
    by_cases hl : env.link valve w.nextElem = true <;>
      simp [kms_plumber_endpoint_link_valve, hm, hp, hl, hnext, hbin,
        kms_multi_channel_controller_create_media_stream, World.record,
        gst_element_factory_make, g_object_set, gst_bin_add, gst_element_link,
        kms_utils_set_valve_drop, sync_state_with_parent_bin, (hs _ _).2.2.2.1] at hx ⊢ <;>
      rcases hx with hx | rfl <;> first | exact Nat.lt_succ_of_lt (h x hx) | exact Nat.lt_succ_self _

/-- A state change changes neither the children of the bin nor the element
counter, so it keeps the children of the bin below the element counter. -/
theorem change_state_allocated (env : Env) (transition : GstStateChange)
    (self : KmsPlumberEndpointPrivate) (w : World) (h : w.allocated) :
    (kms_plumber_endpoint_change_state env transition self w).2.2.allocated := by
  obtain ⟨_, _, hbin, _, hnext, _, _⟩ := create_mcc_frame env self w
  intro x hx
  cases transition <;>
    simp [kms_plumber_endpoint_change_state, World.record, hbin, hnext,
      kms_multi_channel_controller_stop, kms_multi_channel_controller_unref] at hx ⊢ <;>
    exact h x hx

/-- Program order of lines 223 to 269: the handler is connected first, then the
element is added to the bin, then it is started, and only then come the link
and the wait. -/
theorem create_sctp_src_insert_order (env : Env) (fuel : Nat) (agnosticbin : ElemId)
    (element : ElementSlot) (e : ElemId) (self : KmsPlumberEndpointPrivate) (w : World) :
    create_sctp_src_insert env fuel agnosticbin element e self w
      = create_sctp_src_link_and_wait env fuel agnosticbin element e
          (create_sctp_src_subscribe e self w).1 self
          (gst_element_sync_state_with_parent env e
            (gst_bin_add e (create_sctp_src_subscribe e self w).2)) :=
  rfl

/-- A wait records one call. -/
theorem g_cond_wait_until_trace (sig_id end_time : Nat) (w : World) :
    (g_cond_wait_until sig_id end_time w).2.trace
      = w.trace ++ [Event.cond_wait_until end_time] := by
  unfold g_cond_wait_until
  simp only
  split
  · split <;> rfl
  · rfl

/-- The loop of lines 253 to 257 only appends to the trace. -/
theorem wait_for_current_port_trace (sig_id end_time : Nat) :
    ∀ (fuel : Nat) (w w' : World), wait_for_current_port sig_id end_time fuel w = some w' →
      ∃ rest, w'.trace = w.trace ++ rest := by
  intro fuel
  induction fuel with
  | zero =>
    intro w w' h
    by_cases hd : (syncdataOf w sig_id).done = true
    · simp [wait_for_current_port, hd] at h
      exact ⟨[], by simp [h]⟩
    · simp [wait_for_current_port, hd] at h
  | succ n ih =>
    intro w w' h
    by_cases hd : (syncdataOf w sig_id).done = true
    · simp [wait_for_current_port, hd] at h
      exact ⟨[], by simp [h]⟩
    · simp only [wait_for_current_port, hd, Bool.false_eq_true, if_false] at h
      obtain ⟨rest, hrest⟩ := ih _ _ h
      refine ⟨Event.cond_wait_until end_time :: rest, ?_⟩
      rw [hrest, g_cond_wait_until_trace]
      simp

/-- Disconnecting a handler records one call. -/
theorem g_signal_handler_disconnect_trace (inst : Option ElemId) (sig_id : Nat) (w : World) :
    (g_signal_handler_disconnect inst sig_id w).trace
      = w.trace ++ [Event.signal_handler_disconnect inst sig_id] := by
  cases inst <;> rfl

/-- Lines 237 to 269 only append to the trace. -/
theorem create_sctp_src_link_and_wait_trace (env : Env) (fuel : Nat) (agnosticbin : ElemId)
    (element : ElementSlot) (e : ElemId) (sig_id : Nat)
    (self self' : KmsPlumberEndpointPrivate) (w w' : World) (r : Int)
    (hr : create_sctp_src_link_and_wait env fuel agnosticbin element e sig_id self w
      = some (r, self', w')) :
    ∃ rest, w'.trace = w.trace ++ rest := by
  simp only [create_sctp_src_link_and_wait, gst_element_link] at hr
  by_cases hl : env.link e agnosticbin = true
  · simp only [hl, Bool.not_true, Bool.false_eq_true, if_false] at hr
    split at hr
    · exact absurd hr (by simp)
    · rename_i w2 hw
      obtain ⟨rest, hrest⟩ := wait_for_current_port_trace _ _ _ _ _ hw
      simp only [create_sctp_src_end, Option.some.injEq, Prod.mk.injEq] at hr
      obtain ⟨_, _, rfl⟩ := hr
      refine ⟨Event.element_link e agnosticbin :: rest ++ [Event.signal_handler_disconnect (element.read self) sig_id], ?_⟩
      rw [g_signal_handler_disconnect_trace, hrest]
      simp [World.record]
  · have hl' : env.link e agnosticbin = false := by simpa using hl
    simp only [hl', Bool.not_false, if_true, create_sctp_src_end, Option.some.injEq,
      Prod.mk.injEq] at hr
    obtain ⟨_, _, rfl⟩ := hr
    refine ⟨[Event.element_link e agnosticbin, Event.set_state_null e, Event.bin_remove e,
      Event.signal_handler_disconnect (element.read (element.write none self)) sig_id], ?_⟩
    rw [g_signal_handler_disconnect_trace]
    simp [gst_bin_remove, gst_element_set_state_null, World.record]

/-- With an empty receiving slot, the switch of lines 199 to 221 makes the
element, stores it in the slot and goes on with lines 223 to 269. -/
theorem create_sctp_src_inserts (env : Env) (fuel : Nat) (t : StreamType) (chanid : Nat)
    (self : KmsPlumberEndpointPrivate) (w : World) (slot : ElementSlot)
    (agnosticbin : ElemId)
    (hsel : src_selection env t = some (slot, agnosticbin))
    (hempty : slot.read self = none) :
    kms_plumber_endpoint_create_sctp_src env fuel t chanid self w
      = create_sctp_src_insert env fuel agnosticbin slot w.nextElem
          (slot.write (some w.nextElem) self)
          (gst_element_factory_make "sctpserversrc" w).2 := by
  cases t with
  | STREAM_TYPE_AUDIO =>
    simp only [src_selection, Option.some.injEq, Prod.mk.injEq] at hsel
    obtain ⟨rfl, rfl⟩ := hsel
    simp only [ElementSlot.read] at hempty
    simp [kms_plumber_endpoint_create_sctp_src, hempty, gst_element_factory_make,
      ElementSlot.write]
  | STREAM_TYPE_VIDEO =>
    simp only [src_selection, Option.some.injEq, Prod.mk.injEq] at hsel
    obtain ⟨rfl, rfl⟩ := hsel
    simp only [ElementSlot.read] at hempty
    simp [kms_plumber_endpoint_create_sctp_src, hempty, gst_element_factory_make,
      ElementSlot.write]
  | other raw => simp [src_selection] at hsel

/-- Writing a slot leaves the local address alone. -/
theorem ElementSlot.write_local_addr (slot : ElementSlot) (v : Option ElemId)
    (priv : KmsPlumberEndpointPrivate) :
    (slot.write v priv).local_addr = priv.local_addr := by
  cases slot <;> rfl

/-- A notification emitted while the element is started reaches the handler
connected by lines 223 to 232: if the link succeeds the call returns the
reported port for every fuel, without a wait and without time passing. -/
theorem create_sctp_src_insert_immediate (env : Env) (fuel : Nat) (agnosticbin : ElemId)
    (element : ElementSlot) (e : ElemId) (self : KmsPlumberEndpointPrivate) (w : World)
    (p : Int) (hread : element.read self = some e)
    (hlink : env.link e agnosticbin = true) (hbind : env.bind e = some (0, p)) :
    ∃ w', create_sctp_src_insert env fuel agnosticbin element e self w
          = some (p, self, w') ∧
      w'.clock = w.clock ∧
      w'.trace = w.trace ++
        [ Event.object_set e "bind-address" (GValue.string self.local_addr),
          Event.signal_connect e "notify::current-port" w.nextSig,
          Event.bin_add e,
          Event.sync_state_with_parent e,
          Event.element_link e agnosticbin,
          Event.signal_handler_disconnect (some e) w.nextSig ] := by
  cases fuel <;>
    simp [create_sctp_src_insert, create_sctp_src_end, gst_element_link, hlink,
      gst_element_sync_state_with_parent, hbind, emit_notify_current_port,
      sctp_server_notify_current_port, World.record, gst_bin_add, g_signal_connect,
      g_object_set, wait_for_current_port, syncdataOf, hread, g_signal_handler_disconnect]

/-- Had the handler been connected only after the start, a notification
emitted while the element is started would be lost: whatever the element did
during its start, the data of a handler connected afterwards is still the
initial one. -/
theorem late_subscription_misses_notification (env : Env) (e : ElemId) (w : World)
    (data : SyncCurrentPortData) :
    syncdataOf
        (g_signal_connect e "notify::current-port" data
          (gst_element_sync_state_with_parent env e w)).2
        (gst_element_sync_state_with_parent env e w).nextSig
      = data := by
  simp [syncdataOf, g_signal_connect]

/-- C11. On every run of `kms_plumber_endpoint_create_sctp_src` that finds the
receiving slot of an audio or video request empty, the program order is: lines
223 to 232 (`create_sctp_src_subscribe`), then `gst_bin_add`, then
`gst_element_sync_state_with_parent`, then the link and the wait.  In the world
in which `gst_bin_add` is reached the handler is connected to the new element
with `done = FALSE` and `port = -1`, and the element is neither a new child of
the bin nor started.  Every run that returns has recorded the connect before
the add and the start.  Hence an element that reports port `p` while it is
started is observed: if the link succeeds the call returns `p` for every fuel,
with no `g_cond_wait_until` and no time spent. -/
theorem create_sctp_src_subscribes_before_start (env : Env) (fuel : Nat) (t : StreamType)
    (chanid : Nat) (self : KmsPlumberEndpointPrivate) (w : World)
    (slot : ElementSlot) (agnosticbin : ElemId)
    (hsel : src_selection env t = some (slot, agnosticbin))
    (hempty : slot.read self = none) :
    kms_plumber_endpoint_create_sctp_src env fuel t chanid self w
      = create_sctp_src_link_and_wait env fuel agnosticbin slot w.nextElem w.nextSig
          (slot.write (some w.nextElem) self)
          (gst_element_sync_state_with_parent env w.nextElem
            (gst_bin_add w.nextElem
              (create_sctp_src_subscribe w.nextElem (slot.write (some w.nextElem) self)
                (gst_element_factory_make "sctpserversrc" w).2).2)) ∧
    (create_sctp_src_subscribe w.nextElem (slot.write (some w.nextElem) self)
        (gst_element_factory_make "sctpserversrc" w).2).2.handlers
      = { object := w.nextElem, id := w.nextSig, user_data := { done := false, port := -1 } }
          :: w.handlers ∧
    (create_sctp_src_subscribe w.nextElem (slot.write (some w.nextElem) self)
        (gst_element_factory_make "sctpserversrc" w).2).2.bin = w.bin ∧
    (create_sctp_src_subscribe w.nextElem (slot.write (some w.nextElem) self)
        (gst_element_factory_make "sctpserversrc" w).2).2.trace
      = w.trace ++
          [ Event.factory_make "sctpserversrc" w.nextElem,
            Event.object_set w.nextElem "bind-address" (GValue.string self.local_addr),
            Event.signal_connect w.nextElem "notify::current-port" w.nextSig ] ∧
    (∀ (r : Int) (self' : KmsPlumberEndpointPrivate) (w' : World),
      kms_plumber_endpoint_create_sctp_src env fuel t chanid self w = some (r, self', w') →
      ∃ rest, w'.trace = w.trace ++
          [ Event.factory_make "sctpserversrc" w.nextElem,
            Event.object_set w.nextElem "bind-address" (GValue.string self.local_addr),
            Event.signal_connect w.nextElem "notify::current-port" w.nextSig,
            Event.bin_add w.nextElem,
            Event.sync_state_with_parent w.nextElem ] ++ rest) ∧
    (∀ p : Int, env.bind w.nextElem = some (0, p) → env.link w.nextElem agnosticbin = true →
      ∃ w', kms_plumber_endpoint_create_sctp_src env fuel t chanid self w
            = some (p, slot.write (some w.nextElem) self, w') ∧
        w'.clock = w.clock ∧
        w'.trace = w.trace ++
          immediate_bind_calls w.nextElem w.nextSig agnosticbin self.local_addr) := by
  have hmain := create_sctp_src_inserts env fuel t chanid self w slot agnosticbin hsel hempty
  have hla := ElementSlot.write_local_addr slot (some w.nextElem) self
  have hsub : (create_sctp_src_subscribe w.nextElem (slot.write (some w.nextElem) self)
      (gst_element_factory_make "sctpserversrc" w).2).2.trace
      = w.trace ++
          [ Event.factory_make "sctpserversrc" w.nextElem,
            Event.object_set w.nextElem "bind-address" (GValue.string self.local_addr),
            Event.signal_connect w.nextElem "notify::current-port" w.nextSig ] := by
    simp [create_sctp_src_subscribe, g_signal_connect, g_object_set, World.record,
      gst_element_factory_make, hla]
  refine ⟨?_, ?_, ?_, hsub, ?_, ?_⟩
  · rw [hmain, create_sctp_src_insert_order]
    rfl
  · simp [create_sctp_src_subscribe, g_signal_connect, g_object_set, World.record,
      gst_element_factory_make]
  · simp [create_sctp_src_subscribe, g_signal_connect, g_object_set, World.record,
      gst_element_factory_make]
  · intro r self' w' hr
    rw [hmain, create_sctp_src_insert_order] at hr
    obtain ⟨rest, hrest⟩ := create_sctp_src_link_and_wait_trace _ _ _ _ _ _ _ _ _ _ _ hr
    refine ⟨rest, ?_⟩
    rw [hrest, sync_state_with_parent_trace]
    simp [gst_bin_add, hsub]
  · intro p hbind hlink
    obtain ⟨w', h, hc, ht⟩ := create_sctp_src_insert_immediate env fuel agnosticbin slot
      w.nextElem (slot.write (some w.nextElem) self)
      (gst_element_factory_make "sctpserversrc" w).2 p
      (ElementSlot.read_write slot (some w.nextElem) self).1 hlink hbind
    refine ⟨w', hmain.trans h, by simpa [gst_element_factory_make] using hc, ?_⟩
    simpa [gst_element_factory_make, immediate_bind_calls, hla] using ht

/-- Witness of C11: an audio request on the example endpoint, the element
reporting port 4242 while it is started; the call returns 4242 with fuel 0. -/
theorem create_sctp_src_subscribes_before_start_witness :
    ∃ w', kms_plumber_endpoint_create_sctp_src immediate_env 0
            StreamType.STREAM_TYPE_AUDIO 0 example_endpoint example_world
          = some (4242, ElementSlot.audiosrc.write (some 10) example_endpoint, w') ∧
      w'.clock = 100 ∧
      w'.trace = immediate_bind_calls 10 1 1 (some "localhost") :=
  (create_sctp_src_subscribes_before_start immediate_env 0 StreamType.STREAM_TYPE_AUDIO 0
    example_endpoint example_world ElementSlot.audiosrc 1 rfl rfl).2.2.2.2.2 4242 rfl rfl

/-- C12 (the code at the failing input). A video request on the example
endpoint when no link succeeds: the call returns -1 and its calls are
`link_failure_calls`, whose last one is `g_signal_handler_disconnect` on `NULL`,
the slot having been cleared on line 242 before the label `end:` reads it; no
disconnect is applied to element 10, and the handler 1 connected to element 10
is still in the table of connected handlers.  On the success path (an audio
request with `example_env`) the disconnect is applied to element 10 and no
handler is left. -/
theorem link_failure_disconnects_null_instance :
    (kms_plumber_endpoint_create_sctp_src no_link_env 0 StreamType.STREAM_TYPE_VIDEO 0
        example_endpoint example_world).map (fun r => (r.1, r.2.2.trace, r.2.2.handlers))
      = some (-1, link_failure_calls 10 1 2 (some "localhost"),
          [{ object := 10, id := 1, user_data := { done := false, port := -1 } }]) ∧
    Event.signal_handler_disconnect none 1 ∈ link_failure_calls 10 1 2 (some "localhost") ∧
    Event.signal_handler_disconnect (some 10) 1
      ∉ link_failure_calls 10 1 2 (some "localhost") ∧
    (kms_plumber_endpoint_create_sctp_src example_env 1 StreamType.STREAM_TYPE_AUDIO 0
        example_endpoint example_world).map
        (fun r => (r.1, r.2.2.trace.getLast?, r.2.2.handlers))
      = some (4242, some (Event.signal_handler_disconnect (some 10) 1), []) := by
  decide

end KmsPlumberEndpoint
